import Mathlib

/-!
Shallow embedding of the `pns` privacy-preserving settlement network
(`src/wallet.py`, `src/token_system.py`, `src/voucher.py`, `src/compliance.py`,
`src/ledger.py`, `src/transaction.py`, `src/offline.py`).

Modelling conventions:
* Python dicts keyed by id become association lists `List (String × α)` with
  `mapGet` (first match, like `dict.get`) and `mapSet` (replace in place or
  append, like `d[k] = v`); insertion order is preserved exactly as in CPython.
* `json.dumps(data, sort_keys=True)` is modelled by listing the dict entries in
  sorted key order as a `List (String × PyVal)`; since that serialization is
  injective on such dicts, two payloads produce the same string iff the lists
  are equal.
* `hashlib.sha256(data_str + key).hexdigest()` is modelled as the ideal
  (collision-free) hash `Sig.mk payload key`: signature comparison in the code
  compares the digest strings, which under the ideal-hash reading is exactly
  equality of (payload, key) pairs.
* Nondeterministic inputs (`uuid.uuid4()`, `datetime.now()`,
  `secrets.token_hex`) become explicit parameters; freshness of generated ids
  is a hypothesis of the step relations, matching uuid collision-freedom.
* Risk scores are floats summed from the weights 0.7, 0.3, 0.5 and compared
  with 0.5 and 0.8.  We represent scores in tenths (`Nat`): 0.7 ↦ 7, etc.
  This is faithful because at every reachable score (0, 0.3, 0.7, and
  0.7+0.3, which is exactly 1.0 in binary64) the float comparisons against
  0.5 and 0.8 agree with the rational ones.
-/

/-- A JSON-serializable Python value as it appears in the signed payloads. -/
inductive PyVal where
  | none
  | bool (b : Bool)
  | int (n : Int)
  | str (s : String)
deriving DecidableEq, Repr

/-- Ideal-hash model of `hashlib.sha256(json.dumps(data, sort_keys=True) +
key).hexdigest()`: the digest is identified with the (payload, key) pair,
so digest equality is payload-and-key equality. -/
structure Sig where
  payload : List (String × PyVal)
  signing_key : String
deriving DecidableEq, Repr

/-- Render an `Optional[str]` field into a JSON value. -/
def optStrPy : Option String → PyVal
  | Option.none => PyVal.none
  | some s => PyVal.str s

/-- `dict.get` on an insertion-ordered Python dict (first matching key). -/
def mapGet {α : Type} (m : List (String × α)) (k : String) : Option α :=
  match m with
  | [] => Option.none
  | (k₂, v) :: rest => if k₂ = k then some v else mapGet rest k

/-- `d[k] = v` on an insertion-ordered Python dict: replace the existing
binding in place, or append a new one. -/
def mapSet {α : Type} (m : List (String × α)) (k : String) (v : α) :
    List (String × α) :=
  match m with
  | [] => [(k, v)]
  | (k₂, v₂) :: rest =>
    if k₂ = k then (k, v) :: rest else (k₂, v₂) :: mapSet rest k v

/-- `src/wallet.py` `TransactionStatus` is in `transaction.py`; statuses of an
online transaction. -/
inductive TransactionStatus where
  | pending
  | completed
  | failed
  | cancelled
deriving DecidableEq, Repr

/-- The `.value` string of a `TransactionStatus` enum member. -/
def TransactionStatus.value : TransactionStatus → String
  | pending => "pending"
  | completed => "completed"
  | failed => "failed"
  | cancelled => "cancelled"

/-- `src/offline.py` `OfflineStatus`. -/
inductive OfflineStatus where
  | pending
  | signed
  | synced
  | failed
deriving DecidableEq, Repr

/-- The `.value` string of an `OfflineStatus` enum member. -/
def OfflineStatus.value : OfflineStatus → String
  | pending => "pending"
  | signed => "signed"
  | synced => "synced"
  | failed => "failed"

/-- `src/compliance.py` `ComplianceStatus`. -/
inductive ComplianceStatus where
  | approved
  | flagged
  | rejected
deriving DecidableEq, Repr

/-- The `.value` string of a `ComplianceStatus` enum member. -/
def ComplianceStatus.value : ComplianceStatus → String
  | approved => "approved"
  | flagged => "flagged"
  | rejected => "rejected"

/-- `src/ledger.py` `LedgerEntryType`. -/
inductive LedgerEntryType where
  | anonymous
  | nonAnonymous
  | amlFlagged
deriving DecidableEq, Repr

/-- The `.value` string of a `LedgerEntryType` enum member. -/
def LedgerEntryType.value : LedgerEntryType → String
  | anonymous => "anonymous"
  | nonAnonymous => "non_anonymous"
  | amlFlagged => "aml_flagged"

/-- `src/wallet.py` `Wallet`.  `token_balance` is a Python list of token ids,
`voucher_balance` a Python int. -/
structure Wallet where
  wallet_id : String
  public_key : String
  private_key : String
  token_balance : List String := []
  voucher_balance : Int := 0
deriving DecidableEq, Repr

/-- `Wallet.add_token`: append the id unless already present. -/
def Wallet.add_token (w : Wallet) (token_id : String) : Wallet :=
  if token_id ∈ w.token_balance then w
  else { w with token_balance := w.token_balance ++ [token_id] }

/-- `Wallet.remove_token`: remove the first occurrence, reporting success. -/
def Wallet.remove_token (w : Wallet) (token_id : String) : Wallet × Bool :=
  if token_id ∈ w.token_balance then
    ({ w with token_balance := w.token_balance.erase token_id }, true)
  else (w, false)

/-- `Wallet.add_voucher`. -/
def Wallet.add_voucher (w : Wallet) (count : Int) : Wallet :=
  { w with voucher_balance := w.voucher_balance + count }

/-- `Wallet.use_voucher`: decrement if positive, else fail. -/
def Wallet.use_voucher (w : Wallet) : Wallet × Bool :=
  if w.voucher_balance > 0 then
    ({ w with voucher_balance := w.voucher_balance - 1 }, true)
  else (w, false)

/-- `Wallet.sign_transaction`:
`sha256(json.dumps(data, sort_keys=True) + private_key)` under the ideal-hash
model. -/
def Wallet.sign_transaction (w : Wallet) (transaction_data : List (String × PyVal)) :
    Sig :=
  ⟨transaction_data, w.private_key⟩

/-- `Wallet.verify_signature`: recompute the digest and compare. -/
def Wallet.verify_signature (w : Wallet) (data : List (String × PyVal))
    (signature : Sig) : Bool :=
  signature == ⟨data, w.private_key⟩

/-- `src/token_system.py` `Token`.  `issue_timestamp` is never set by
`TokenManager.issue_token`, so it stays `None`. -/
structure Token where
  token_id : String
  value : Int
  owner_wallet_id : String
  issued_by : String := "ECB"
  issue_timestamp : Option String := Option.none
deriving DecidableEq, Repr

/-- `Token.transfer_ownership`: succeeds iff the new owner id is truthy. -/
def Token.transfer_ownership (t : Token) (new_owner_wallet_id : String) :
    Token × Bool :=
  if new_owner_wallet_id ≠ "" then
    ({ t with owner_wallet_id := new_owner_wallet_id }, true)
  else (t, false)

/-- `src/voucher.py` `Voucher`. -/
structure Voucher where
  voucher_id : String
  signature : Sig
  value_limit : Int
  issued_to_wallet_id : String
  issued_by : String := "AMLAuthority"
  issue_timestamp : Option String := Option.none
  is_used : Bool := false
  used_in_transaction : Option String := Option.none
deriving DecidableEq, Repr

/-- `Voucher.can_be_used_for_value`: `not is_used and value <= value_limit`. -/
def Voucher.can_be_used_for_value (v : Voucher) (value : Int) : Bool :=
  !v.is_used && decide (value ≤ v.value_limit)

/-- `Voucher.mark_as_used`. -/
def Voucher.mark_as_used (v : Voucher) (transaction_id : String) :
    Voucher × Bool :=
  if v.is_used then (v, false)
  else ({ v with is_used := true, used_in_transaction := some transaction_id },
        true)

/-- `src/transaction.py` `Transaction`.  `__post_init__` always fills
`timestamp` with `datetime.now().isoformat()`, so it is a plain `String`. -/
structure Transaction where
  transaction_id : String
  sender_wallet_id : String
  receiver_wallet_id : String
  token_id : String
  voucher_id : Option String := Option.none
  is_anonymous : Bool := false
  status : TransactionStatus := TransactionStatus.pending
  timestamp : String
  aml_flagged : Bool := false
  aml_reason : Option String := Option.none
  signature : Option Sig := Option.none
deriving DecidableEq, Repr

/-- Rendering of the `signature` field when `Transaction.to_dict` is
serialized.  In every modelled code path that feeds a `to_dict` into a digest,
the signature is still `None` (`execute_transfer` signs before assigning the
signature, and `verify_transaction_signature` pops the key first), so the
non-null placeholder string is never compared. -/
def sigPy : Option Sig → PyVal
  | Option.none => PyVal.none
  | some _ => PyVal.str "nonnull-signature-digest"

/-- `Transaction.to_dict`, with the keys listed in the order
`json.dumps(…, sort_keys=True)` serializes them. -/
def Transaction.to_dict (t : Transaction) : List (String × PyVal) :=
  [("aml_flagged", PyVal.bool t.aml_flagged),
   ("aml_reason", optStrPy t.aml_reason),
   ("is_anonymous", PyVal.bool t.is_anonymous),
   ("receiver_wallet_id", PyVal.str t.receiver_wallet_id),
   ("sender_wallet_id", PyVal.str t.sender_wallet_id),
   ("signature", sigPy t.signature),
   ("status", PyVal.str t.status.value),
   ("timestamp", PyVal.str t.timestamp),
   ("token_id", PyVal.str t.token_id),
   ("transaction_id", PyVal.str t.transaction_id),
   ("voucher_id", optStrPy t.voucher_id)]

/-- `src/compliance.py` `AMLEntry`.  `risk_score` is in tenths. -/
structure AMLEntry where
  transaction_id : String
  sender_wallet_id : String
  receiver_wallet_id : String
  token_id : String
  amount : Int
  timestamp : String
  reason : String
  risk_score : Nat
  escalated : Bool := false
  authority_notified : Bool := false
deriving DecidableEq, Repr

/-- `src/compliance.py` `ComplianceResult`.  `risk_score` is in tenths. -/
structure ComplianceResult where
  is_approved : Bool
  status : ComplianceStatus
  reason : Option String := Option.none
  risk_score : Nat := 0
  requires_escalation : Bool := false
deriving DecidableEq, Repr

/-- The `metadata` dict attached to a `LedgerEntry` by `store_transaction`. -/
structure LedgerMetadata where
  voucher_id : Option String
  status : String
  aml_reason : Option String
deriving DecidableEq, Repr

/-- `src/ledger.py` `LedgerEntry`. -/
structure LedgerEntry where
  entry_id : String
  transaction_id : String
  sender_wallet_id : String
  receiver_wallet_id : String
  token_id : String
  value : Int
  is_anonymous : Bool
  entry_type : LedgerEntryType
  timestamp : String
  metadata : LedgerMetadata
deriving DecidableEq, Repr

/-- `src/offline.py` `OfflineTransaction`.  `__post_init__` always fills
`created_timestamp`. -/
structure OfflineTransaction where
  offline_id : String
  sender_wallet_id : String
  receiver_wallet_id : String
  token_id : String
  value : Int
  sender_signature : Option Sig := Option.none
  receiver_signature : Option Sig := Option.none
  status : OfflineStatus := OfflineStatus.pending
  created_timestamp : String
  synced_timestamp : Option String := Option.none
  voucher_id : Option String := Option.none
  is_anonymous : Bool := false
deriving DecidableEq, Repr

/-- The `tx_data` dict built in `OfflineManager._verify_offline_signature`,
with keys in `sort_keys=True` order. -/
def OfflineTransaction.signing_data (tx : OfflineTransaction) :
    List (String × PyVal) :=
  [("is_anonymous", PyVal.bool tx.is_anonymous),
   ("offline_id", PyVal.str tx.offline_id),
   ("receiver_wallet_id", PyVal.str tx.receiver_wallet_id),
   ("sender_wallet_id", PyVal.str tx.sender_wallet_id),
   ("token_id", PyVal.str tx.token_id),
   ("value", PyVal.int tx.value),
   ("voucher_id", optStrPy tx.voucher_id)]

/-- Duck-typed view of a transaction consumed by
`LedgerManager.store_transaction` (either a real `Transaction` or the
`MockTransaction` adapter built in `OfflineManager.sync_with_ledger`). -/
structure TxView where
  transaction_id : String
  sender_wallet_id : String
  receiver_wallet_id : String
  token_id : String
  voucher_id : Option String
  is_anonymous : Bool
  aml_flagged : Bool
  aml_reason : Option String
  timestamp : String
  status_value : String
deriving DecidableEq, Repr

/-- View of an online `Transaction` as the ledger sees it. -/
def Transaction.toView (t : Transaction) : TxView :=
  { transaction_id := t.transaction_id
    sender_wallet_id := t.sender_wallet_id
    receiver_wallet_id := t.receiver_wallet_id
    token_id := t.token_id
    voucher_id := t.voucher_id
    is_anonymous := t.is_anonymous
    aml_flagged := t.aml_flagged
    aml_reason := t.aml_reason
    timestamp := t.timestamp
    status_value := t.status.value }

/-- The `MockTransaction` adapter from `OfflineManager.sync_with_ledger`:
`aml_flagged` is hard-coded `False`, `aml_reason` `None`, the transfer id is
the offline id, the timestamp the creation timestamp, the status value
`"completed"`. -/
def mock_transaction (tx : OfflineTransaction) : TxView :=
  { transaction_id := tx.offline_id
    sender_wallet_id := tx.sender_wallet_id
    receiver_wallet_id := tx.receiver_wallet_id
    token_id := tx.token_id
    voucher_id := tx.voucher_id
    is_anonymous := tx.is_anonymous
    aml_flagged := false
    aml_reason := Option.none
    timestamp := tx.created_timestamp
    status_value := "completed" }

/-- The whole process state: every manager's mutable maps, as wired by
`PrivacyNetworkSystem._setup_manager_references` in `src/main.py` (all
cross-references set; the `OfflineManager` receives no compliance manager). -/
structure SystemState where
  wallets : List (String × Wallet)
  tokens : List (String × Token)
  vouchers : List (String × Voucher)
  aml_registry : List AMLEntry
  authority_contacted : Bool
  entries : List LedgerEntry
  entry_counter : Nat
  transactions : List (String × Transaction)
  offline_transactions : List (String × OfflineTransaction)
deriving DecidableEq, Repr

/-- The freshly assembled system: every store empty, counter 0. -/
def SystemState.empty : SystemState :=
  { wallets := [], tokens := [], vouchers := [], aml_registry := [],
    authority_contacted := false, entries := [], entry_counter := 0,
    transactions := [], offline_transactions := [] }

/-- `WalletManager.wallet_exists`. -/
def wallet_exists (s : SystemState) (wallet_id : String) : Bool :=
  (mapGet s.wallets wallet_id).isSome

/-- `WalletManager.get_wallet`. -/
def get_wallet (s : SystemState) (wallet_id : String) : Option Wallet :=
  mapGet s.wallets wallet_id

/-- `WalletManager.create_wallet`.  `wallet_id` stands for `uuid.uuid4()`,
`private_key` for `secrets.token_hex(32)`; the public key is the one-way
digest of the private key (ideal hash: an injective tagging). -/
def create_wallet (s : SystemState) (wallet_id private_key : String) :
    Wallet × SystemState :=
  let w : Wallet :=
    { wallet_id := wallet_id, public_key := "sha256pub:" ++ private_key,
      private_key := private_key }
  (w, { s with wallets := mapSet s.wallets wallet_id w })

/-- `TokenManager.get_token`. -/
def get_token (s : SystemState) (token_id : String) : Option Token :=
  mapGet s.tokens token_id

/-- `TokenManager.issue_token`.  `token_id` stands for `uuid.uuid4()`.
Raises (`Except.error`) if the owner wallet is unknown, or if the `Token`
constructor's `__post_init__` rejects the id/value/owner. -/
def issue_token (s : SystemState) (value : Int) (owner_wallet_id : String)
    (token_id : String) : Except String Token × SystemState :=
  if ¬ wallet_exists s owner_wallet_id then
    (Except.error "Wallet does not exist", s)
  else if token_id = "" ∨ value ≤ 0 ∨ owner_wallet_id = "" then
    (Except.error "Token must have valid ID, positive value, and owner", s)
  else
    let token : Token :=
      { token_id := token_id, value := value,
        owner_wallet_id := owner_wallet_id }
    let s1 := { s with tokens := mapSet s.tokens token_id token }
    let s2 :=
      match mapGet s1.wallets owner_wallet_id with
      | some w =>
        { s1 with
          wallets := mapSet s1.wallets owner_wallet_id (w.add_token token_id) }
      | Option.none => s1
    (Except.ok token, s2)

/-- `TokenManager.transfer_token`: verify existence and ownership, then
remove from the sender's set, add to the receiver's set, and reassign the
token's owner — exactly in the source's order. -/
def transfer_token (s : SystemState)
    (token_id sender_wallet_id receiver_wallet_id : String) :
    Bool × SystemState :=
  match mapGet s.tokens token_id with
  | Option.none => (false, s)
  | some token =>
    if token.owner_wallet_id ≠ sender_wallet_id then (false, s)
    else if ¬ (wallet_exists s sender_wallet_id &&
               wallet_exists s receiver_wallet_id) then (false, s)
    else
      let s1 :=
        match mapGet s.wallets sender_wallet_id with
        | some w =>
          { s with
            wallets := mapSet s.wallets sender_wallet_id
              (w.remove_token token_id).1 }
        | Option.none => s
      let s2 :=
        match mapGet s1.wallets receiver_wallet_id with
        | some w =>
          { s1 with
            wallets := mapSet s1.wallets receiver_wallet_id
              (w.add_token token_id) }
        | Option.none => s1
      let s3 :=
        { s2 with
          tokens := mapSet s2.tokens token_id
            (token.transfer_ownership receiver_wallet_id).1 }
      (true, s3)

/-- `VoucherManager.aml_authority_private_key`. -/
def aml_authority_private_key : String := "aml_authority_secret_key_123"

/-- The `voucher_data` dict built in `VoucherManager.issue_voucher`, with
keys in `sort_keys=True` order. -/
def voucher_issue_data (voucher_id : String) (value_limit : Int)
    (wallet_id ts : String) : List (String × PyVal) :=
  [("issue_timestamp", PyVal.str ts),
   ("issued_by", PyVal.str "AMLAuthority"),
   ("issued_to_wallet_id", PyVal.str wallet_id),
   ("value_limit", PyVal.int value_limit),
   ("voucher_id", PyVal.str voucher_id)]

/-- `VoucherManager._generate_aml_signature`. -/
def generate_aml_signature (voucher_data : List (String × PyVal)) : Sig :=
  ⟨voucher_data, aml_authority_private_key⟩

/-- `VoucherManager.issue_voucher`.  `voucher_id` stands for `uuid.uuid4()`,
`ts` for `datetime.now().isoformat()`.  Raises if the wallet is unknown or
the `Voucher` constructor rejects the id/limit. -/
def issue_voucher (s : SystemState) (wallet_id : String) (value_limit : Int)
    (voucher_id ts : String) : Except String Voucher × SystemState :=
  if ¬ wallet_exists s wallet_id then
    (Except.error "Wallet does not exist", s)
  else if voucher_id = "" ∨ value_limit ≤ 0 then
    (Except.error
      "Voucher must have valid ID, signature, and positive value limit", s)
  else
    let signature :=
      generate_aml_signature (voucher_issue_data voucher_id value_limit wallet_id ts)
    let v : Voucher :=
      { voucher_id := voucher_id, signature := signature,
        value_limit := value_limit, issued_to_wallet_id := wallet_id,
        issue_timestamp := some ts }
    let s1 := { s with vouchers := mapSet s.vouchers voucher_id v }
    let s2 :=
      match mapGet s1.wallets wallet_id with
      | some w =>
        { s1 with wallets := mapSet s1.wallets wallet_id (w.add_voucher 1) }
      | Option.none => s1
    (Except.ok v, s2)

/-- `VoucherManager.get_voucher`. -/
def get_voucher (s : SystemState) (voucher_id : String) : Option Voucher :=
  mapGet s.vouchers voucher_id

/-- `VoucherManager.redeem_voucher`: look up, check usability, mark used,
then decrement the issuing wallet's voucher count (`Wallet.use_voucher`,
which silently does nothing at balance 0). -/
def redeem_voucher (s : SystemState) (voucher_id transaction_id : String)
    (transaction_value : Int) : Bool × SystemState :=
  match mapGet s.vouchers voucher_id with
  | Option.none => (false, s)
  | some voucher =>
    if ¬ voucher.can_be_used_for_value transaction_value then (false, s)
    else
      let marked := voucher.mark_as_used transaction_id
      if marked.2 then
        let s1 := { s with vouchers := mapSet s.vouchers voucher_id marked.1 }
        let s2 :=
          match mapGet s1.wallets voucher.issued_to_wallet_id with
          | some w =>
            { s1 with
              wallets := mapSet s1.wallets voucher.issued_to_wallet_id
                (w.use_voucher).1 }
          | Option.none => s1
        (true, s2)
      else (false, s)

/-- `ComplianceManager.compliance_rules['high_value_threshold']`. -/
def high_value_threshold : Int := 100

/-- `ComplianceManager._check_suspicious_patterns`:
`_get_recent_transactions` always returns `[]`, so the count of recent
high-value transactions is 0 and the predicate is always `False`. -/
def check_suspicious_patterns (_transaction : Transaction) (_token : Token) :
    Bool :=
  let recent_transactions : List Int := []
  let high_value_count :=
    (recent_transactions.filter (fun a => decide (a > 50))).length
  decide (high_value_count > 3)

/-- `ComplianceManager._create_aml_entry` followed (inside the same call,
when `risk_score ≥ 0.8`) by `_escalate_to_authority`.  The Python code
appends the entry and then mutates the aliased `escalated` /
`authority_notified` fields; the net post-call registry is modelled
directly.  `transaction.timestamp` is always a non-empty iso string
(`__post_init__`), so the `or datetime.now()` fallback is dead. -/
def create_aml_entry (s : SystemState) (transaction : Transaction)
    (token : Token) (risk_score : Nat) (reasons : List String) : SystemState :=
  let entry : AMLEntry :=
    { transaction_id := transaction.transaction_id
      sender_wallet_id := transaction.sender_wallet_id
      receiver_wallet_id := transaction.receiver_wallet_id
      token_id := transaction.token_id
      amount := token.value
      timestamp := transaction.timestamp
      reason := String.intercalate "; " reasons
      risk_score := risk_score }
  let entry :=
    if risk_score ≥ 8 then
      { entry with escalated := true, authority_notified := true }
    else entry
  { s with
    aml_registry := s.aml_registry ++ [entry],
    authority_contacted :=
      if risk_score ≥ 8 then true else s.authority_contacted }

/-- `ComplianceManager.check_transaction`: accumulate additive rule weights
(in tenths), pick the status, append an AML entry when flagged, and return
the `ComplianceResult`. -/
def check_transaction (s : SystemState) (transaction : Transaction)
    (token : Token) : ComplianceResult × SystemState :=
  let (risk1, reasons1) :=
    if token.value > high_value_threshold then
      (7, ["High value transaction: €" ++ toString token.value])
    else (0, [])
  let (risk2, reasons2) :=
    if ¬ transaction.is_anonymous then (3, ["Non-anonymous transaction"])
    else (0, [])
  let (risk3, reasons3) :=
    if check_suspicious_patterns transaction token then
      (5, ["Suspicious transaction pattern detected"])
    else (0, [])
  let risk_score : Nat := risk1 + risk2 + risk3
  let reasons : List String := reasons1 ++ reasons2 ++ reasons3
  let status :=
    if risk_score ≥ 8 then ComplianceStatus.flagged
    else if risk_score ≥ 5 then ComplianceStatus.flagged
    else ComplianceStatus.approved
  let is_approved := true
  let s1 :=
    if status = ComplianceStatus.flagged then
      create_aml_entry s transaction token risk_score reasons
    else s
  ({ is_approved := is_approved, status := status,
     reason :=
       if reasons = [] then Option.none
       else some (String.intercalate "; " reasons),
     risk_score := risk_score,
     requires_escalation := decide (risk_score ≥ 8) }, s1)

/-- `LedgerManager.store_transaction`: assign the next sequential entry id,
classify (AML-flagged over anonymous over non-anonymous), resolve the value
through the token manager, and append.  `now_ts` stands for the
`datetime.now()` fallback used when the transaction's timestamp is falsy.
(`_save_ledger`'s file write has no in-process effect.) -/
def store_transaction (s : SystemState) (transaction : TxView)
    (now_ts : String) : String × SystemState :=
  let entry_id := toString s.entry_counter
  let s1 := { s with entry_counter := s.entry_counter + 1 }
  let entry_type :=
    if transaction.aml_flagged then LedgerEntryType.amlFlagged
    else if transaction.is_anonymous then LedgerEntryType.anonymous
    else LedgerEntryType.nonAnonymous
  let token_value :=
    match mapGet s1.tokens transaction.token_id with
    | some tok => tok.value
    | Option.none => 0
  let entry : LedgerEntry :=
    { entry_id := entry_id
      transaction_id := transaction.transaction_id
      sender_wallet_id := transaction.sender_wallet_id
      receiver_wallet_id := transaction.receiver_wallet_id
      token_id := transaction.token_id
      value := token_value
      is_anonymous := transaction.is_anonymous
      entry_type := entry_type
      timestamp :=
        if transaction.timestamp = "" then now_ts else transaction.timestamp
      metadata :=
        { voucher_id := transaction.voucher_id,
          status := transaction.status_value,
          aml_reason := transaction.aml_reason } }
  (entry_id, { s1 with entries := s1.entries ++ [entry] })

/-- `TransactionEngine.execute_transfer`.  `transaction_id` stands for
`uuid.uuid4()`, `ts` for `datetime.now().isoformat()`.  Mirrors the source
order: validation, voucher validation, transaction construction, compliance
check, token transfer, voucher redemption, signing (over the still-`pending`
payload whose `signature` field is still `None`), completion, ledger append,
store.  On a raised error the state keeps every mutation already applied
(compliance entry, token move) — nothing is rolled back — and the failed
transaction object is discarded, never stored. -/
def execute_transfer (s : SystemState)
    (sender_wallet_id receiver_wallet_id token_id : String)
    (voucher_id : Option String) (transaction_id ts : String) :
    Except String Transaction × SystemState :=
  if sender_wallet_id = "" ∨ receiver_wallet_id = "" ∨ token_id = "" then
    (Except.error "Sender, receiver, and token ID are required", s)
  else if sender_wallet_id = receiver_wallet_id then
    (Except.error "Sender and receiver cannot be the same", s)
  else if ¬ (wallet_exists s sender_wallet_id &&
             wallet_exists s receiver_wallet_id) then
    (Except.error "One or both wallets do not exist", s)
  else
    match mapGet s.tokens token_id with
    | Option.none => (Except.error "Token does not exist", s)
    | some token =>
      if token.owner_wallet_id ≠ sender_wallet_id then
        (Except.error "Sender does not own token", s)
      else
        let voucher_check : Except String Bool :=
          match voucher_id with
          | Option.none => Except.ok false
          | some vid =>
            match mapGet s.vouchers vid with
            | Option.none => Except.error "Voucher does not exist"
            | some voucher =>
              if voucher.issued_to_wallet_id ≠ sender_wallet_id then
                Except.error "Voucher does not belong to sender"
              else if ¬ voucher.can_be_used_for_value token.value then
                Except.error "Voucher cannot be used for this value"
              else Except.ok true
        match voucher_check with
        | Except.error e => (Except.error e, s)
        | Except.ok is_anonymous =>
          let transaction : Transaction :=
            { transaction_id := transaction_id
              sender_wallet_id := sender_wallet_id
              receiver_wallet_id := receiver_wallet_id
              token_id := token_id
              voucher_id := voucher_id
              is_anonymous := is_anonymous
              timestamp := ts }
          let checked := check_transaction s transaction token
          let s1 := checked.2
          let transaction :=
            { transaction with
              aml_flagged := checked.1.status.value == "flagged"
              aml_reason := checked.1.reason }
          let transferred :=
            transfer_token s1 token_id sender_wallet_id receiver_wallet_id
          let s2 := transferred.2
          if ¬ transferred.1 then
            (Except.error "Token transfer failed", s2)
          else
            let redeemed :=
              match voucher_id with
              | some vid => redeem_voucher s2 vid transaction_id token.value
              | Option.none => (true, s2)
            let s3 := redeemed.2
            if ¬ redeemed.1 then
              (Except.error "Voucher redemption failed", s3)
            else
              let transaction :=
                match get_wallet s3 sender_wallet_id with
                | some sender_wallet =>
                  { transaction with
                    signature :=
                      some (sender_wallet.sign_transaction transaction.to_dict) }
                | Option.none => transaction
              let transaction :=
                { transaction with status := TransactionStatus.completed }
              let s4 := (store_transaction s3 transaction.toView ts).2
              (Except.ok transaction,
               { s4 with
                 transactions :=
                   mapSet s4.transactions transaction_id transaction })

/-- `TransactionEngine.get_transaction`. -/
def get_transaction (s : SystemState) (transaction_id : String) :
    Option Transaction :=
  mapGet s.transactions transaction_id

/-- `TransactionEngine.list_all_transactions` (`dict.values()` in insertion
order). -/
def list_all_transactions (s : SystemState) : List Transaction :=
  s.transactions.map Prod.snd

/-- `TransactionEngine.get_transactions_by_wallet`. -/
def get_transactions_by_wallet (s : SystemState) (wallet_id : String) :
    List Transaction :=
  (list_all_transactions s).filter
    (fun tx => tx.sender_wallet_id == wallet_id ||
               tx.receiver_wallet_id == wallet_id)

/-- `TransactionEngine.get_anonymous_transactions`. -/
def get_anonymous_transactions (s : SystemState) : List Transaction :=
  (list_all_transactions s).filter (fun tx => tx.is_anonymous)

/-- `TransactionEngine.get_aml_flagged_transactions`. -/
def get_aml_flagged_transactions (s : SystemState) : List Transaction :=
  (list_all_transactions s).filter (fun tx => tx.aml_flagged)

/-- `TransactionEngine.get_completed_transactions`. -/
def get_completed_transactions (s : SystemState) : List Transaction :=
  (list_all_transactions s).filter
    (fun tx => tx.status == TransactionStatus.completed)

/-- `TransactionEngine.get_failed_transactions`. -/
def get_failed_transactions (s : SystemState) : List Transaction :=
  (list_all_transactions s).filter
    (fun tx => tx.status == TransactionStatus.failed)

/-- `transaction_data.pop('signature', None)` on a `to_dict` result. -/
def pop_key (l : List (String × PyVal)) (k : String) : List (String × PyVal) :=
  l.filter (fun p => p.1 != k)

/-- `TransactionEngine.verify_transaction_signature`: recompute the sender's
expected signature over the stored transaction's `to_dict` without the
`signature` key and compare with the stored signature. -/
def verify_transaction_signature (s : SystemState) (transaction_id : String) :
    Bool :=
  match mapGet s.transactions transaction_id with
  | Option.none => false
  | some transaction =>
    match transaction.signature with
    | Option.none => false
    | some signature =>
      match get_wallet s transaction.sender_wallet_id with
      | Option.none => false
      | some sender_wallet =>
        sender_wallet.verify_signature
          (pop_key transaction.to_dict "signature") signature

/-- `OfflineManager.create_offline_transaction`: the same validation as
`execute_transfer` steps 1–3, then record a `pending` offline transaction
snapshotting the token's current value — no ownership move, no redemption. -/
def create_offline_transaction (s : SystemState)
    (sender_wallet_id receiver_wallet_id token_id : String)
    (voucher_id : Option String) (offline_id ts : String) :
    Except String OfflineTransaction × SystemState :=
  if sender_wallet_id = "" ∨ receiver_wallet_id = "" ∨ token_id = "" then
    (Except.error "Sender, receiver, and token ID are required", s)
  else if sender_wallet_id = receiver_wallet_id then
    (Except.error "Sender and receiver cannot be the same", s)
  else if ¬ (wallet_exists s sender_wallet_id &&
             wallet_exists s receiver_wallet_id) then
    (Except.error "One or both wallets do not exist", s)
  else
    match mapGet s.tokens token_id with
    | Option.none => (Except.error "Token does not exist", s)
    | some token =>
      if token.owner_wallet_id ≠ sender_wallet_id then
        (Except.error "Sender does not own token", s)
      else
        let voucher_check : Except String Bool :=
          match voucher_id with
          | Option.none => Except.ok false
          | some vid =>
            match mapGet s.vouchers vid with
            | Option.none => Except.error "Voucher does not exist"
            | some voucher =>
              if voucher.issued_to_wallet_id ≠ sender_wallet_id then
                Except.error "Voucher does not belong to sender"
              else if ¬ voucher.can_be_used_for_value token.value then
                Except.error "Voucher cannot be used for this value"
              else Except.ok true
        match voucher_check with
        | Except.error e => (Except.error e, s)
        | Except.ok is_anonymous =>
          let offline_tx : OfflineTransaction :=
            { offline_id := offline_id
              sender_wallet_id := sender_wallet_id
              receiver_wallet_id := receiver_wallet_id
              token_id := token_id
              value := token.value
              voucher_id := voucher_id
              is_anonymous := is_anonymous
              created_timestamp := ts }
          (Except.ok offline_tx,
           { s with
             offline_transactions :=
               mapSet s.offline_transactions offline_id offline_tx })

/-- `OfflineManager._verify_offline_signature`: the expected signature is the
given wallet's deterministic signature over the canonical offline payload. -/
def verify_offline_signature (s : SystemState) (offline_tx : OfflineTransaction)
    (wallet_id : String) (signature : Sig) : Bool :=
  match get_wallet s wallet_id with
  | Option.none => false
  | some wallet => signature == wallet.sign_transaction offline_tx.signing_data

/-- `OfflineManager.sign_offline_transaction`: accept only a matching
signature from the sender or the receiver, store it in the corresponding
slot, and set status to `signed` once both slots are filled.  Note: there is
no check on the current status. -/
def sign_offline_transaction (s : SystemState) (offline_id wallet_id : String)
    (signature : Sig) : Bool × SystemState :=
  match mapGet s.offline_transactions offline_id with
  | Option.none => (false, s)
  | some offline_tx =>
    if ¬ verify_offline_signature s offline_tx wallet_id signature then
      (false, s)
    else if wallet_id = offline_tx.sender_wallet_id then
      let tx2 := { offline_tx with sender_signature := some signature }
      let tx3 :=
        if tx2.sender_signature.isSome && tx2.receiver_signature.isSome then
          { tx2 with status := OfflineStatus.signed }
        else tx2
      (true, { s with
               offline_transactions :=
                 mapSet s.offline_transactions offline_id tx3 })
    else if wallet_id = offline_tx.receiver_wallet_id then
      let tx2 := { offline_tx with receiver_signature := some signature }
      let tx3 :=
        if tx2.sender_signature.isSome && tx2.receiver_signature.isSome then
          { tx2 with status := OfflineStatus.signed }
        else tx2
      (true, { s with
               offline_transactions :=
                 mapSet s.offline_transactions offline_id tx3 })
    else (false, s)

/-- `OfflineManager.sync_with_ledger`: valid only from `signed`; execute the
token transfer, redeem the voucher if present, append a ledger entry through
the `MockTransaction` adapter, and mark the record `synced`.  On execution
failure the record is marked `failed` and `false` is returned, keeping the
partial mutations.  `now_ts` stands for `datetime.now().isoformat()`. -/
def sync_with_ledger (s : SystemState) (offline_id now_ts : String) :
    Bool × SystemState :=
  match mapGet s.offline_transactions offline_id with
  | Option.none => (false, s)
  | some offline_tx =>
    if offline_tx.status ≠ OfflineStatus.signed then (false, s)
    else
      let transferred :=
        transfer_token s offline_tx.token_id offline_tx.sender_wallet_id
          offline_tx.receiver_wallet_id
      let s1 := transferred.2
      if ¬ transferred.1 then
        (false,
         { s1 with
           offline_transactions :=
             mapSet s1.offline_transactions offline_id
               { offline_tx with status := OfflineStatus.failed } })
      else
        let redeemed :=
          match offline_tx.voucher_id with
          | some vid =>
            redeem_voucher s1 vid offline_tx.offline_id offline_tx.value
          | Option.none => (true, s1)
        let s2 := redeemed.2
        if ¬ redeemed.1 then
          (false,
           { s2 with
             offline_transactions :=
               mapSet s2.offline_transactions offline_id
                 { offline_tx with status := OfflineStatus.failed } })
        else
          let s3 := (store_transaction s2 (mock_transaction offline_tx) now_ts).2
          (true,
           { s3 with
             offline_transactions :=
               mapSet s3.offline_transactions offline_id
                 { offline_tx with
                   status := OfflineStatus.synced,
                   synced_timestamp := some now_ts } })

/-- `OfflineManager.get_offline_transaction`. -/
def get_offline_transaction (s : SystemState) (offline_id : String) :
    Option OfflineTransaction :=
  mapGet s.offline_transactions offline_id

/-- One step of the assembled system: any public mutating operation, with
arbitrary arguments.  Generated ids (`uuid.uuid4()`) are fresh and non-empty;
timestamps and keys are arbitrary strings. -/
inductive Step : SystemState → SystemState → Prop where
  | createWallet (s : SystemState) (wallet_id private_key : String)
      (hfresh : mapGet s.wallets wallet_id = Option.none)
      (hid : wallet_id ≠ "") :
      Step s (create_wallet s wallet_id private_key).2
  | issueToken (s : SystemState) (value : Int) (owner_wallet_id token_id : String)
      (hfresh : mapGet s.tokens token_id = Option.none) :
      Step s (issue_token s value owner_wallet_id token_id).2
  | transferToken (s : SystemState)
      (token_id sender_wallet_id receiver_wallet_id : String) :
      Step s (transfer_token s token_id sender_wallet_id receiver_wallet_id).2
  | issueVoucher (s : SystemState) (wallet_id : String) (value_limit : Int)
      (voucher_id ts : String)
      (hfresh : mapGet s.vouchers voucher_id = Option.none) :
      Step s (issue_voucher s wallet_id value_limit voucher_id ts).2
  | redeemVoucher (s : SystemState) (voucher_id transaction_id : String)
      (transaction_value : Int) :
      Step s (redeem_voucher s voucher_id transaction_id transaction_value).2
  | checkTransaction (s : SystemState) (transaction : Transaction) (token : Token) :
      Step s (check_transaction s transaction token).2
  | executeTransfer (s : SystemState)
      (sender_wallet_id receiver_wallet_id token_id : String)
      (voucher_id : Option String) (transaction_id ts : String)
      (hfresh : mapGet s.transactions transaction_id = Option.none) :
      Step s (execute_transfer s sender_wallet_id receiver_wallet_id token_id
        voucher_id transaction_id ts).2
  | createOffline (s : SystemState)
      (sender_wallet_id receiver_wallet_id token_id : String)
      (voucher_id : Option String) (offline_id ts : String)
      (hfresh : mapGet s.offline_transactions offline_id = Option.none) :
      Step s (create_offline_transaction s sender_wallet_id receiver_wallet_id
        token_id voucher_id offline_id ts).2
  | signOffline (s : SystemState) (offline_id wallet_id : String)
      (signature : Sig) :
      Step s (sign_offline_transaction s offline_id wallet_id signature).2
  | syncLedger (s : SystemState) (offline_id now_ts : String) :
      Step s (sync_with_ledger s offline_id now_ts).2

/-- States reachable from the freshly assembled system by any operation
sequence. -/
def Reachable (s : SystemState) : Prop :=
  Relation.ReflTransGen Step SystemState.empty s

/-- One `TokenManager` / `WalletManager` step: wallet creation, token
issuance, token transfer. -/
inductive TokStep : SystemState → SystemState → Prop where
  | createWallet (s : SystemState) (wallet_id private_key : String)
      (hfresh : mapGet s.wallets wallet_id = Option.none)
      (hid : wallet_id ≠ "") :
      TokStep s (create_wallet s wallet_id private_key).2
  | issueToken (s : SystemState) (value : Int) (owner_wallet_id token_id : String)
      (hfresh : mapGet s.tokens token_id = Option.none) :
      TokStep s (issue_token s value owner_wallet_id token_id).2
  | transferToken (s : SystemState)
      (token_id sender_wallet_id receiver_wallet_id : String) :
      TokStep s (transfer_token s token_id sender_wallet_id receiver_wallet_id).2

/-- States reachable through wallet creation and `TokenManager` operations. -/
def TokReachable (s : SystemState) : Prop :=
  Relation.ReflTransGen TokStep SystemState.empty s

/-- One `VoucherAuthority` / `WalletManager` step: wallet creation, voucher
issuance, voucher redemption. -/
inductive VouStep : SystemState → SystemState → Prop where
  | createWallet (s : SystemState) (wallet_id private_key : String)
      (hfresh : mapGet s.wallets wallet_id = Option.none)
      (hid : wallet_id ≠ "") :
      VouStep s (create_wallet s wallet_id private_key).2
  | issueVoucher (s : SystemState) (wallet_id : String) (value_limit : Int)
      (voucher_id ts : String)
      (hfresh : mapGet s.vouchers voucher_id = Option.none) :
      VouStep s (issue_voucher s wallet_id value_limit voucher_id ts).2
  | redeemVoucher (s : SystemState) (voucher_id transaction_id : String)
      (transaction_value : Int) :
      VouStep s (redeem_voucher s voucher_id transaction_id transaction_value).2

/-- States reachable through wallet creation and `VoucherAuthority`
operations. -/
def VouReachable (s : SystemState) : Prop :=
  Relation.ReflTransGen VouStep SystemState.empty s

/-- `token_id` sits in wallet `wallet_id`'s token set. -/
def wallet_owns (s : SystemState) (wallet_id token_id : String) : Prop :=
  ∃ w, mapGet s.wallets wallet_id = some w ∧ token_id ∈ w.token_balance

/-- Ownership bookkeeping invariant of the token system: wallet ids are
non-empty, token sets are duplicate-free, and every token id in a wallet's
set names a stored token whose `owner_wallet_id` is that wallet. -/
def TokenOwnershipInv (s : SystemState) : Prop :=
  mapGet s.wallets "" = Option.none ∧
  ∀ wallet_id w, mapGet s.wallets wallet_id = some w →
    w.token_balance.Nodup ∧
    ∀ token_id ∈ w.token_balance,
      ∃ tok, mapGet s.tokens token_id = some tok ∧
        tok.owner_wallet_id = wallet_id

/-- Number of unused vouchers currently issued to `wallet_id`. -/
def unused_voucher_count (s : SystemState) (wallet_id : String) : Nat :=
  (s.vouchers.filter
    (fun p => p.2.issued_to_wallet_id == wallet_id && !p.2.is_used)).length

/-- Voucher bookkeeping invariant: every voucher's issuing wallet exists,
and every wallet's `voucher_balance` equals its number of unused vouchers. -/
def VoucherCountInv (s : SystemState) : Prop :=
  (∀ p, p ∈ s.vouchers →
    wallet_exists s p.2.issued_to_wallet_id = true) ∧
  (∀ wid w, mapGet s.wallets wid = some w →
    w.voucher_balance = (unused_voucher_count s wid : Int))

/-- Every stored online transaction is `completed`. -/
def CompletedInv (s : SystemState) : Prop :=
  ∀ p, p ∈ s.transactions → p.2.status = TransactionStatus.completed

/-- Allowed status movement of one offline transfer across one system step:
unchanged, (re-)entering `signed` through a signature, or leaving `signed`
for `synced`/`failed` through a sync. -/
def offline_status_edge (a b : OfflineStatus) : Prop :=
  b = a ∨ b = OfflineStatus.signed ∨
    (a = OfflineStatus.signed ∧
      (b = OfflineStatus.synced ∨ b = OfflineStatus.failed))

/-- Concrete timestamps used by the executable scenarios. -/
def tsA : String := "2025-01-01T10:00:00"

/-- Second concrete timestamp (sync time). -/
def tsB : String := "2025-01-02T10:00:00"

/-- Scenario: one wallet `W1`. -/
def s_w1 : SystemState := (create_wallet SystemState.empty "W1" "K1").2

/-- Scenario: wallets `W1`, `W2`. -/
def s_w2 : SystemState := (create_wallet s_w1 "W2" "K2").2

/-- Scenario: wallets `W1`, `W2`; token `TOK1` of value 50 owned by `W1`. -/
def s_tok50 : SystemState := (issue_token s_w2 50 "W1" "TOK1").2

/-- Scenario: wallets `W1`, `W2`; token `TOK1` of value 150 owned by `W1`. -/
def s_tok150 : SystemState := (issue_token s_w2 150 "W1" "TOK1").2

/-- Scenario: wallets `W1`, `W2`; voucher `V1` (limit 100) issued to `W1`. -/
def s_vou : SystemState := (issue_voucher s_w2 "W1" 100 "V1" tsA).2

/-- Online transfer of the value-50 token, no voucher. -/
def c2_run : Except String Transaction × SystemState :=
  execute_transfer s_tok50 "W1" "W2" "TOK1" Option.none "TX1" tsA

/-- Scenario: wallet `W1` only; token `TOK1` of value 5 owned by `W1`. -/
def c3_base : SystemState := (issue_token s_w1 5 "W1" "TOK1").2

/-- Self-transfer of `TOK1` by `W1`. -/
def c3_run : Bool × SystemState := transfer_token c3_base "TOK1" "W1" "W1"

/-- Canonical signing payload of the value-150 offline transfer `OF1`. -/
def c1_data : List (String × PyVal) :=
  [("is_anonymous", PyVal.bool false),
   ("offline_id", PyVal.str "OF1"),
   ("receiver_wallet_id", PyVal.str "W2"),
   ("sender_wallet_id", PyVal.str "W1"),
   ("token_id", PyVal.str "TOK1"),
   ("value", PyVal.int 150),
   ("voucher_id", PyVal.none)]

/-- Offline transfer `OF1` of the value-150 token, just created. -/
def c1_s1 : SystemState :=
  (create_offline_transaction s_tok150 "W1" "W2" "TOK1" Option.none "OF1"
    tsA).2

/-- `OF1` after the sender signed. -/
def c1_s2 : SystemState :=
  (sign_offline_transaction c1_s1 "OF1" "W1" ⟨c1_data, "K1"⟩).2

/-- `OF1` after both parties signed (status `signed`). -/
def c1_s3 : SystemState :=
  (sign_offline_transaction c1_s2 "OF1" "W2" ⟨c1_data, "K2"⟩).2

/-- Result of syncing `OF1` with the ledger. -/
def c1_run : Bool × SystemState := sync_with_ledger c1_s3 "OF1" tsB

/-- Re-signing `OF1` after it already reached `synced`. -/
def c7_run : Bool × SystemState :=
  sign_offline_transaction c1_run.2 "OF1" "W1" ⟨c1_data, "K1"⟩

/-- The record of `OF1` while in status `signed`. -/
def c1_tx_signed : OfflineTransaction :=
  { offline_id := "OF1", sender_wallet_id := "W1", receiver_wallet_id := "W2",
    token_id := "TOK1", value := 150,
    sender_signature := some ⟨c1_data, "K1"⟩,
    receiver_signature := some ⟨c1_data, "K2"⟩,
    status := OfflineStatus.signed, created_timestamp := tsA }

/-- The record of `OF1` after the successful sync. -/
def c1_tx_synced : OfflineTransaction :=
  { c1_tx_signed with
    status := OfflineStatus.synced, synced_timestamp := some tsB }

/-- First redemption of voucher `V1`. -/
def c4_run : Bool × SystemState := redeem_voucher s_vou "V1" "TXV" 50

/-- Sample token of value 50 (Scenario A shape). -/
def tok_50 : Token := { token_id := "TOK1", value := 50, owner_wallet_id := "W1" }

/-- Sample token of value 150 (Scenario B shape). -/
def tok_150 : Token := { token_id := "TOK1", value := 150, owner_wallet_id := "W1" }

/-- Sample non-anonymous pending transfer `W1 → W2`. -/
def tx_sample : Transaction :=
  { transaction_id := "TX1", sender_wallet_id := "W1",
    receiver_wallet_id := "W2", token_id := "TOK1", timestamp := tsA }

/-! ### Association-list lemmas -/

theorem mapGet_mapSet {α : Type} (m : List (String × α)) (k k' : String)
    (v : α) :
    mapGet (mapSet m k v) k' = if k = k' then some v else mapGet m k' := by
  induction m with
  | nil => by_cases h : k = k' <;> simp [mapSet, mapGet, h]
  | cons a rest ih =>
    obtain ⟨k₂, v₂⟩ := a
    by_cases h2 : k₂ = k
    · subst h2
      by_cases h : k₂ = k' <;> simp [mapSet, mapGet, h]
    · by_cases h : k₂ = k'
      · subst h
        have hkk : ¬ k = k₂ := fun hh => h2 hh.symm
        simp [mapSet, h2, mapGet, hkk]
      · simp [mapSet, h2, mapGet, h, ih]

theorem mapGet_mapSet_self {α : Type} (m : List (String × α)) (k : String)
    (v : α) : mapGet (mapSet m k v) k = some v := by
  simp [mapGet_mapSet]

theorem mapGet_mapSet_ne {α : Type} (m : List (String × α)) {k k' : String}
    (v : α) (h : k ≠ k') :
    mapGet (mapSet m k v) k' = mapGet m k' := by
  simp [mapGet_mapSet, h]

theorem mem_mapSet {α : Type} {m : List (String × α)} {k : String} {v : α}
    {p : String × α} (h : p ∈ mapSet m k v) : p ∈ m ∨ p = (k, v) := by
  induction m with
  | nil => simpa [mapSet] using h
  | cons a rest ih =>
    obtain ⟨k₂, v₂⟩ := a
    by_cases h2 : k₂ = k
    · subst h2
      have h3 : p = (k₂, v) ∨ p ∈ rest := by simpa [mapSet] using h
      rcases h3 with h3 | h3
      · exact Or.inr h3
      · exact Or.inl (List.mem_cons_of_mem _ h3)
    · have h3 : p = (k₂, v₂) ∨ p ∈ mapSet rest k v := by
        simpa [mapSet, h2] using h
      rcases h3 with h3 | h3
      · exact Or.inl (by simp [h3])
      · rcases ih h3 with h' | h'
        · exact Or.inl (List.mem_cons_of_mem _ h')
        · exact Or.inr h'

theorem mapGet_mem {α : Type} {m : List (String × α)} {k : String} {v : α}
    (h : mapGet m k = some v) : (k, v) ∈ m := by
  induction m with
  | nil => simp [mapGet] at h
  | cons a rest ih =>
    obtain ⟨k₂, v₂⟩ := a
    by_cases h2 : k₂ = k
    · subst h2
      have hv : v₂ = v := by simpa [mapGet] using h
      subst hv
      exact List.mem_cons_self _ _
    · have h3 : mapGet rest k = some v := by simpa [mapGet, h2] using h
      exact List.mem_cons_of_mem _ (ih h3)

theorem mapSet_of_get_none {α : Type} {m : List (String × α)} {k : String}
    (v : α) (h : mapGet m k = Option.none) : mapSet m k v = m ++ [(k, v)] := by
  induction m with
  | nil => simp [mapSet]
  | cons a rest ih =>
    obtain ⟨k₂, v₂⟩ := a
    by_cases h2 : k₂ = k
    · subst h2
      simp [mapGet] at h
    · have h3 : mapGet rest k = Option.none := by simpa [mapGet, h2] using h
      simp [mapSet, h2, ih h3]

theorem filter_length_mapSet {α : Type} {m : List (String × α)} {k : String}
    {v : α} (v' : α) (p : String × α → Bool) (h : mapGet m k = some v) :
    ((mapSet m k v').filter p).length + (if p (k, v) then 1 else 0) =
      (m.filter p).length + (if p (k, v') then 1 else 0) := by
  induction m with
  | nil => simp [mapGet] at h
  | cons a rest ih =>
    obtain ⟨k₂, v₂⟩ := a
    by_cases h2 : k₂ = k
    · subst h2
      have hv : v₂ = v := by simpa [mapGet] using h
      subst hv
      by_cases hp : p (k₂, v₂) <;> by_cases hp' : p (k₂, v') <;>
        simp [mapSet, List.filter_cons, hp, hp']
    · have h3 : mapGet rest k = some v := by simpa [mapGet, h2] using h
      have h4 := ih h3
      by_cases hv2 : p (k₂, v₂) <;>
        simp [mapSet, h2, List.filter_cons, hv2] <;> omega

/-! ### Frame lemmas: fields untouched by each operation -/

theorem create_wallet_frame (s : SystemState) (wallet_id private_key : String) :
    ((create_wallet s wallet_id private_key).2.tokens = s.tokens) ∧
    ((create_wallet s wallet_id private_key).2.vouchers = s.vouchers) ∧
    ((create_wallet s wallet_id private_key).2.aml_registry = s.aml_registry) ∧
    ((create_wallet s wallet_id private_key).2.entries = s.entries) ∧
    ((create_wallet s wallet_id private_key).2.entry_counter = s.entry_counter) ∧
    ((create_wallet s wallet_id private_key).2.transactions = s.transactions) ∧
    ((create_wallet s wallet_id private_key).2.offline_transactions =
      s.offline_transactions) :=
  ⟨rfl, rfl, rfl, rfl, rfl, rfl, rfl⟩

theorem issue_token_frame (s : SystemState) (value : Int)
    (owner_wallet_id token_id : String) :
    ((issue_token s value owner_wallet_id token_id).2.vouchers = s.vouchers) ∧
    ((issue_token s value owner_wallet_id token_id).2.aml_registry =
      s.aml_registry) ∧
    ((issue_token s value owner_wallet_id token_id).2.entries = s.entries) ∧
    ((issue_token s value owner_wallet_id token_id).2.entry_counter =
      s.entry_counter) ∧
    ((issue_token s value owner_wallet_id token_id).2.transactions =
      s.transactions) ∧
    ((issue_token s value owner_wallet_id token_id).2.offline_transactions =
      s.offline_transactions) := by
  simp only [issue_token]
  repeat
    first
    | exact ⟨rfl, rfl, rfl, rfl, rfl, rfl⟩
    | split

theorem transfer_token_frame (s : SystemState)
    (token_id sender_wallet_id receiver_wallet_id : String) :
    ((transfer_token s token_id sender_wallet_id receiver_wallet_id).2.vouchers
      = s.vouchers) ∧
    ((transfer_token s token_id sender_wallet_id receiver_wallet_id).2.aml_registry
      = s.aml_registry) ∧
    ((transfer_token s token_id sender_wallet_id receiver_wallet_id).2.entries
      = s.entries) ∧
    ((transfer_token s token_id sender_wallet_id receiver_wallet_id).2.entry_counter
      = s.entry_counter) ∧
    ((transfer_token s token_id sender_wallet_id receiver_wallet_id).2.transactions
      = s.transactions) ∧
    ((transfer_token s token_id sender_wallet_id receiver_wallet_id).2.offline_transactions
      = s.offline_transactions) ∧
    ((transfer_token s token_id sender_wallet_id receiver_wallet_id).2.authority_contacted
      = s.authority_contacted) := by
  simp only [transfer_token]
  repeat
    first
    | exact ⟨rfl, rfl, rfl, rfl, rfl, rfl, rfl⟩
    | split

theorem issue_voucher_frame (s : SystemState) (wallet_id : String)
    (value_limit : Int) (voucher_id ts : String) :
    ((issue_voucher s wallet_id value_limit voucher_id ts).2.tokens = s.tokens) ∧
    ((issue_voucher s wallet_id value_limit voucher_id ts).2.aml_registry =
      s.aml_registry) ∧
    ((issue_voucher s wallet_id value_limit voucher_id ts).2.entries =
      s.entries) ∧
    ((issue_voucher s wallet_id value_limit voucher_id ts).2.entry_counter =
      s.entry_counter) ∧
    ((issue_voucher s wallet_id value_limit voucher_id ts).2.transactions =
      s.transactions) ∧
    ((issue_voucher s wallet_id value_limit voucher_id ts).2.offline_transactions
      = s.offline_transactions) := by
  simp only [issue_voucher]
  repeat
    first
    | exact ⟨rfl, rfl, rfl, rfl, rfl, rfl⟩
    | split

theorem redeem_voucher_frame (s : SystemState)
    (voucher_id transaction_id : String) (transaction_value : Int) :
    ((redeem_voucher s voucher_id transaction_id transaction_value).2.tokens
      = s.tokens) ∧
    ((redeem_voucher s voucher_id transaction_id transaction_value).2.aml_registry
      = s.aml_registry) ∧
    ((redeem_voucher s voucher_id transaction_id transaction_value).2.entries
      = s.entries) ∧
    ((redeem_voucher s voucher_id transaction_id transaction_value).2.entry_counter
      = s.entry_counter) ∧
    ((redeem_voucher s voucher_id transaction_id transaction_value).2.transactions
      = s.transactions) ∧
    ((redeem_voucher s voucher_id transaction_id transaction_value).2.offline_transactions
      = s.offline_transactions) ∧
    ((redeem_voucher s voucher_id transaction_id transaction_value).2.authority_contacted
      = s.authority_contacted) := by
  simp only [redeem_voucher]
  repeat
    first
    | exact ⟨rfl, rfl, rfl, rfl, rfl, rfl, rfl⟩
    | split

theorem check_transaction_frame (s : SystemState) (transaction : Transaction)
    (token : Token) :
    ((check_transaction s transaction token).2.wallets = s.wallets) ∧
    ((check_transaction s transaction token).2.tokens = s.tokens) ∧
    ((check_transaction s transaction token).2.vouchers = s.vouchers) ∧
    ((check_transaction s transaction token).2.entries = s.entries) ∧
    ((check_transaction s transaction token).2.entry_counter =
      s.entry_counter) ∧
    ((check_transaction s transaction token).2.transactions =
      s.transactions) ∧
    ((check_transaction s transaction token).2.offline_transactions =
      s.offline_transactions) := by
  simp only [check_transaction, create_aml_entry]
  repeat
    first
    | exact ⟨rfl, rfl, rfl, rfl, rfl, rfl, rfl⟩
    | split

theorem store_transaction_frame (s : SystemState) (transaction : TxView)
    (now_ts : String) :
    ((store_transaction s transaction now_ts).2.wallets = s.wallets) ∧
    ((store_transaction s transaction now_ts).2.tokens = s.tokens) ∧
    ((store_transaction s transaction now_ts).2.vouchers = s.vouchers) ∧
    ((store_transaction s transaction now_ts).2.aml_registry =
      s.aml_registry) ∧
    ((store_transaction s transaction now_ts).2.transactions =
      s.transactions) ∧
    ((store_transaction s transaction now_ts).2.offline_transactions =
      s.offline_transactions) ∧
    ((store_transaction s transaction now_ts).2.authority_contacted =
      s.authority_contacted) :=
  ⟨rfl, rfl, rfl, rfl, rfl, rfl, rfl⟩

/-! ### Voucher redemption -/

theorem can_be_used_elim {v : Voucher} {value : Int}
    (h : v.can_be_used_for_value value = true) :
    v.is_used = false ∧ value ≤ v.value_limit := by
  simpa [Voucher.can_be_used_for_value] using h

theorem redeem_voucher_success_vouchers {s : SystemState}
    {voucher_id : String} (transaction_id : String) {transaction_value : Int}
    {voucher : Voucher} (hv : mapGet s.vouchers voucher_id = some voucher)
    (hc : voucher.can_be_used_for_value transaction_value = true) :
    (redeem_voucher s voucher_id transaction_id transaction_value).1 = true ∧
    (redeem_voucher s voucher_id transaction_id transaction_value).2.vouchers =
      mapSet s.vouchers voucher_id
        { voucher with
          is_used := true, used_in_transaction := some transaction_id } := by
  have hused : voucher.is_used = false := (can_be_used_elim hc).1
  have hm : voucher.mark_as_used transaction_id =
      ({ voucher with
         is_used := true, used_in_transaction := some transaction_id }, true) := by
    simp [Voucher.mark_as_used, hused]
  constructor <;>
    · simp only [redeem_voucher, hv, hc, hm]
      repeat
        first
        | rfl
        | (rename_i hcontra; exact absurd trivial hcontra)
        | split

/-- **C4** Voucher single-use: once `redeem_voucher` has succeeded on a
voucher id, any further `redeem_voucher` call on that id — for any transfer
id and any value — returns `False` and leaves the entire state (in
particular the voucher's `is_used` flag and `used_in_transaction` field,
every other voucher, and every wallet) unchanged. -/
theorem voucher_single_use (s : SystemState)
    (voucher_id transaction_id : String) (transaction_value : Int)
    (h : (redeem_voucher s voucher_id transaction_id transaction_value).1 =
      true) :
    ∀ (transaction_id' : String) (transaction_value' : Int),
      redeem_voucher
        (redeem_voucher s voucher_id transaction_id transaction_value).2
        voucher_id transaction_id' transaction_value' =
      (false,
       (redeem_voucher s voucher_id transaction_id transaction_value).2) := by
  intro transaction_id' transaction_value'
  rcases hv : mapGet s.vouchers voucher_id with _ | voucher
  · simp [redeem_voucher, hv] at h
  · by_cases hc : voucher.can_be_used_for_value transaction_value = true
    · have hs := redeem_voucher_success_vouchers transaction_id hv hc
      generalize hs2 :
        (redeem_voucher s voucher_id transaction_id transaction_value).2 = s2
      rw [hs2] at hs
      have hg : mapGet s2.vouchers voucher_id = some
          { voucher with
            is_used := true,
            used_in_transaction := some transaction_id } := by
        rw [hs.2]; exact mapGet_mapSet_self _ _ _
      have hcu : Voucher.can_be_used_for_value
          { voucher with
            is_used := true,
            used_in_transaction := some transaction_id }
          transaction_value' = false := by
        simp [Voucher.can_be_used_for_value]
      simp only [redeem_voucher, hg, hcu]
      simp
    · have hcf : voucher.can_be_used_for_value transaction_value = false := by
        simpa [Bool.not_eq_true] using hc
      simp [redeem_voucher, hv, hcf] at h

/-- Witness for `voucher_single_use` (Scenario E shape): voucher `V1`
(limit 100) redeemed once for a 50-unit transfer; the second redemption
fails with no state change. -/
theorem voucher_single_use_witness :
    (redeem_voucher s_vou "V1" "TXV" 50).1 = true ∧
    redeem_voucher c4_run.2 "V1" "TXZ" 10 = (false, c4_run.2) :=
  ⟨by decide, voucher_single_use s_vou "V1" "TXV" 50 (by decide) "TXZ" 10⟩

/-! ### Compliance scoring -/

theorem check_suspicious_patterns_false (t : Transaction) (tok : Token) :
    check_suspicious_patterns t tok = false := rfl

theorem check_transaction_high_nonanon (s : SystemState) (t : Transaction)
    (tok : Token) (hv : tok.value > high_value_threshold)
    (ha : t.is_anonymous = false) :
    check_transaction s t tok =
      ({ is_approved := true, status := ComplianceStatus.flagged,
         reason := some (String.intercalate "; "
           ["High value transaction: €" ++ toString tok.value,
            "Non-anonymous transaction"]),
         risk_score := 10, requires_escalation := true },
       { s with
         aml_registry := s.aml_registry ++
           [{ transaction_id := t.transaction_id,
              sender_wallet_id := t.sender_wallet_id,
              receiver_wallet_id := t.receiver_wallet_id,
              token_id := t.token_id, amount := tok.value,
              timestamp := t.timestamp,
              reason := String.intercalate "; "
                ["High value transaction: €" ++ toString tok.value,
                 "Non-anonymous transaction"],
              risk_score := 10, escalated := true,
              authority_notified := true }],
         authority_contacted := true }) := by
  have hsusp : check_suspicious_patterns t tok = false := rfl
  simp [check_transaction, create_aml_entry, hsusp, hv, ha]

theorem check_transaction_high_anon (s : SystemState) (t : Transaction)
    (tok : Token) (hv : tok.value > high_value_threshold)
    (ha : t.is_anonymous = true) :
    check_transaction s t tok =
      ({ is_approved := true, status := ComplianceStatus.flagged,
         reason := some (String.intercalate "; "
           ["High value transaction: €" ++ toString tok.value]),
         risk_score := 7, requires_escalation := false },
       { s with
         aml_registry := s.aml_registry ++
           [{ transaction_id := t.transaction_id,
              sender_wallet_id := t.sender_wallet_id,
              receiver_wallet_id := t.receiver_wallet_id,
              token_id := t.token_id, amount := tok.value,
              timestamp := t.timestamp,
              reason := String.intercalate "; "
                ["High value transaction: €" ++ toString tok.value],
              risk_score := 7, escalated := false,
              authority_notified := false }] }) := by
  have hsusp : check_suspicious_patterns t tok = false := rfl
  simp [check_transaction, create_aml_entry, hsusp, hv, ha]

theorem check_transaction_low_nonanon (s : SystemState) (t : Transaction)
    (tok : Token) (hv : ¬ tok.value > high_value_threshold)
    (ha : t.is_anonymous = false) :
    check_transaction s t tok =
      ({ is_approved := true, status := ComplianceStatus.approved,
         reason := some (String.intercalate "; " ["Non-anonymous transaction"]),
         risk_score := 3, requires_escalation := false }, s) := by
  have hsusp : check_suspicious_patterns t tok = false := rfl
  simp [check_transaction, create_aml_entry, hsusp, hv, ha]

theorem check_transaction_low_anon (s : SystemState) (t : Transaction)
    (tok : Token) (hv : ¬ tok.value > high_value_threshold)
    (ha : t.is_anonymous = true) :
    check_transaction s t tok =
      ({ is_approved := true, status := ComplianceStatus.approved,
         reason := Option.none, risk_score := 0,
         requires_escalation := false }, s) := by
  have hsusp : check_suspicious_patterns t tok = false := rfl
  simp [check_transaction, create_aml_entry, hsusp, hv, ha]

/-- **C5** Compliance scoring thresholds: `check_transaction` flags exactly
the transfers whose accumulated risk score reaches 0.5 (5 tenths), appending
exactly one `AMLEntry` for them, and approves the rest, appending nothing;
either way `is_approved` is `True` (flagging monitors, it never blocks).
Scenario A: a non-anonymous transfer of a value-50 token scores 0.3
(3 tenths), is `approved`, and appends no AML entry. -/
theorem compliance_scoring_thresholds (s : SystemState) (t : Transaction)
    (tok : Token) :
    ((check_transaction s t tok).1.risk_score ≥ 5 →
      (check_transaction s t tok).1.status = ComplianceStatus.flagged ∧
      ∃ e, (check_transaction s t tok).2.aml_registry =
          s.aml_registry ++ [e] ∧
        e.transaction_id = t.transaction_id) ∧
    ((check_transaction s t tok).1.risk_score < 5 →
      (check_transaction s t tok).1.status = ComplianceStatus.approved ∧
      (check_transaction s t tok).2.aml_registry = s.aml_registry) ∧
    (check_transaction s t tok).1.is_approved = true ∧
    ((check_transaction s tx_sample tok_50).1.risk_score = 3 ∧
     (check_transaction s tx_sample tok_50).1.status =
       ComplianceStatus.approved ∧
     (check_transaction s tx_sample tok_50).2.aml_registry =
       s.aml_registry) := by
  have hS := check_transaction_low_nonanon s tx_sample tok_50 (by decide) rfl
  by_cases hv : tok.value > high_value_threshold <;> by_cases ha : t.is_anonymous
  · rw [check_transaction_high_anon s t tok hv ha]
    exact ⟨fun _ => ⟨rfl, ⟨_, rfl, rfl⟩⟩, (by intro hlt; simp at hlt),
      rfl, by rw [hS]; exact ⟨rfl, rfl, rfl⟩⟩
  · have ha' : t.is_anonymous = false := by simpa using ha
    rw [check_transaction_high_nonanon s t tok hv ha']
    exact ⟨fun _ => ⟨rfl, ⟨_, rfl, rfl⟩⟩, (by intro hlt; simp at hlt),
      rfl, by rw [hS]; exact ⟨rfl, rfl, rfl⟩⟩
  · rw [check_transaction_low_anon s t tok hv ha]
    exact ⟨(by intro hge; simp at hge), fun _ => ⟨rfl, rfl⟩,
      rfl, by rw [hS]; exact ⟨rfl, rfl, rfl⟩⟩
  · have ha' : t.is_anonymous = false := by simpa using ha
    rw [check_transaction_low_nonanon s t tok hv ha']
    exact ⟨(by intro hge; simp at hge), fun _ => ⟨rfl, rfl⟩,
      rfl, by rw [hS]; exact ⟨rfl, rfl, rfl⟩⟩

/-- Witness for `compliance_scoring_thresholds`: a non-anonymous transfer of
a value-150 token scores 10 tenths ≥ 5, is flagged, and appends one AML
entry. -/
theorem compliance_scoring_thresholds_witness :
    (check_transaction SystemState.empty tx_sample tok_150).1.risk_score ≥ 5 ∧
    ((check_transaction SystemState.empty tx_sample tok_150).1.status =
       ComplianceStatus.flagged ∧
     ∃ e, (check_transaction SystemState.empty tx_sample tok_150).2.aml_registry
         = SystemState.empty.aml_registry ++ [e] ∧
       e.transaction_id = tx_sample.transaction_id) :=
  ⟨by decide,
   (compliance_scoring_thresholds SystemState.empty tx_sample tok_150).1
     (by decide)⟩

/-- **C6** Escalation: whenever `check_transaction` accumulates a risk score
of at least 0.8 (8 tenths), the result carries `requires_escalation = True`
and the single `AMLEntry` appended by the same call ends the call with
`escalated = True` and `authority_notified = True`.  Scenario B: a
non-anonymous transfer of a value-150 token scores 0.7 + 0.3 = 1.0
(10 tenths), is `flagged`, requires escalation, and appends one escalated
entry. -/
theorem compliance_escalation (s : SystemState) (t : Transaction)
    (tok : Token) :
    ((check_transaction s t tok).1.risk_score ≥ 8 →
      (check_transaction s t tok).1.requires_escalation = true ∧
      ∃ e, (check_transaction s t tok).2.aml_registry =
          s.aml_registry ++ [e] ∧
        e.escalated = true ∧ e.authority_notified = true) ∧
    ((check_transaction s tx_sample tok_150).1.risk_score = 10 ∧
     (check_transaction s tx_sample tok_150).1.status =
       ComplianceStatus.flagged ∧
     (check_transaction s tx_sample tok_150).1.requires_escalation = true ∧
     ∃ e, (check_transaction s tx_sample tok_150).2.aml_registry =
         s.aml_registry ++ [e] ∧
       e.escalated = true ∧ e.authority_notified = true) := by
  have hS := check_transaction_high_nonanon s tx_sample tok_150 (by decide) rfl
  constructor
  · by_cases hv : tok.value > high_value_threshold <;>
      by_cases ha : t.is_anonymous
    · rw [check_transaction_high_anon s t tok hv ha]
      exact (by intro hge; simp at hge)
    · have ha' : t.is_anonymous = false := by simpa using ha
      rw [check_transaction_high_nonanon s t tok hv ha']
      exact fun _ => ⟨rfl, ⟨_, rfl, rfl, rfl⟩⟩
    · rw [check_transaction_low_anon s t tok hv ha]
      exact (by intro hge; simp at hge)
    · have ha' : t.is_anonymous = false := by simpa using ha
      rw [check_transaction_low_nonanon s t tok hv ha']
      exact (by intro hge; simp at hge)
  · rw [hS]
    exact ⟨rfl, rfl, rfl, ⟨_, rfl, rfl, rfl⟩⟩

/-- Witness for `compliance_escalation` at the Scenario B inputs. -/
theorem compliance_escalation_witness :
    (check_transaction SystemState.empty tx_sample tok_150).1.risk_score ≥ 8 ∧
    ((check_transaction SystemState.empty tx_sample tok_150).1.requires_escalation
       = true ∧
     ∃ e, (check_transaction SystemState.empty tx_sample tok_150).2.aml_registry
         = SystemState.empty.aml_registry ++ [e] ∧
       e.escalated = true ∧ e.authority_notified = true) :=
  ⟨by decide,
   (compliance_escalation SystemState.empty tx_sample tok_150).1 (by decide)⟩

/-! ### Signature verification (C2) -/

theorem to_dict_length (t : Transaction) : t.to_dict.length = 11 := rfl

theorem pop_key_to_dict (t : Transaction) :
    (pop_key t.to_dict "signature").length = 10 := rfl

theorem verify_eq_false_of_stored (s' : SystemState) (transaction_id : String)
    (t : Transaction) (hget : mapGet s'.transactions transaction_id = some t)
    (hsig : t.signature = Option.none ∨
      ∃ (d : List (String × PyVal)) (k : String),
        t.signature = some ⟨d, k⟩ ∧ d.length = 11) :
    verify_transaction_signature s' transaction_id = false := by
  simp only [verify_transaction_signature, hget]
  rcases hsig with hnone | ⟨d, k, hsome, hlen⟩
  · simp [hnone]
  · simp only [hsome]
    rcases hw : get_wallet s' t.sender_wallet_id with _ | w
    · rfl
    · simp only [Wallet.verify_signature]
      rw [beq_eq_false_iff_ne]
      intro hcontra
      have hpay : d = pop_key t.to_dict "signature" :=
        congrArg Sig.payload hcontra
      have : (11 : Nat) = 10 := by
        rw [← hlen, hpay]; exact pop_key_to_dict t
      simp at this

/-- Outcome of `execute_transfer`: every raising path leaves the transaction
store untouched, and every successful path returns a `completed` transaction,
stores exactly it under its fresh id, and — because the signature was
computed over the still-`pending` payload with its `signature` field still
`None`, while re-verification recomputes over the `completed` payload with
the `signature` key popped — independent signature re-verification on the
stored transfer always returns `False`. -/
theorem execute_transfer_spec (s : SystemState)
    (sender_wallet_id receiver_wallet_id token_id : String)
    (voucher_id : Option String) (transaction_id ts : String) :
    (((execute_transfer s sender_wallet_id receiver_wallet_id token_id
        voucher_id transaction_id ts).1.isOk = false) ∧
     (execute_transfer s sender_wallet_id receiver_wallet_id token_id
        voucher_id transaction_id ts).2.transactions = s.transactions) ∨
    ((execute_transfer s sender_wallet_id receiver_wallet_id token_id
        voucher_id transaction_id ts).1.isOk = true ∧
     ∀ t, (execute_transfer s sender_wallet_id receiver_wallet_id token_id
        voucher_id transaction_id ts).1 = Except.ok t →
      t.transaction_id = transaction_id ∧
      t.status = TransactionStatus.completed ∧
      (execute_transfer s sender_wallet_id receiver_wallet_id token_id
        voucher_id transaction_id ts).2.transactions =
        mapSet s.transactions transaction_id t ∧
      verify_transaction_signature
        (execute_transfer s sender_wallet_id receiver_wallet_id token_id
          voucher_id transaction_id ts).2 transaction_id = false) := by
  simp only [execute_transfer]
  split
  · exact Or.inl ⟨rfl, rfl⟩
  split
  · exact Or.inl ⟨rfl, rfl⟩
  split
  · exact Or.inl ⟨rfl, rfl⟩
  split
  · exact Or.inl ⟨rfl, rfl⟩
  rename_i token htok
  split
  · exact Or.inl ⟨rfl, rfl⟩
  split
  · exact Or.inl ⟨rfl, rfl⟩
  rename_i is_anonymous hanon
  split
  · rename_i htrf
    refine Or.inl ⟨rfl, ?_⟩
    rw [(transfer_token_frame _ _ _ _).2.2.2.2.1,
      (check_transaction_frame _ _ _).2.2.2.2.2.1]
  split
  · rename_i hred
    refine Or.inl ⟨rfl, ?_⟩
    split
    · rw [(redeem_voucher_frame _ _ _ _).2.2.2.2.1,
        (transfer_token_frame _ _ _ _).2.2.2.2.1,
        (check_transaction_frame _ _ _).2.2.2.2.2.1]
    · rw [(transfer_token_frame _ _ _ _).2.2.2.2.1,
        (check_transaction_frame _ _ _).2.2.2.2.2.1]
  rename_i hred2
  split
  · rename_i w hw
    refine Or.inr ⟨rfl, ?_⟩
    intro t ht
    injection ht with ht
    subst ht
    refine ⟨rfl, rfl, ?_, ?_⟩
    · show mapSet ((store_transaction _ _ _).2.transactions) _ _ = _
      rw [(store_transaction_frame _ _ _).2.2.2.2.1]
      split
      · rw [(redeem_voucher_frame _ _ _ _).2.2.2.2.1,
          (transfer_token_frame _ _ _ _).2.2.2.2.1,
          (check_transaction_frame _ _ _).2.2.2.2.2.1]
      · rw [(transfer_token_frame _ _ _ _).2.2.2.2.1,
          (check_transaction_frame _ _ _).2.2.2.2.2.1]
    · exact verify_eq_false_of_stored _ _ _ (mapGet_mapSet_self _ _ _)
        (Or.inr ⟨_, _, rfl, to_dict_length _⟩)
  · refine Or.inr ⟨rfl, ?_⟩
    intro t ht
    injection ht with ht
    subst ht
    refine ⟨rfl, rfl, ?_, ?_⟩
    · show mapSet ((store_transaction _ _ _).2.transactions) _ _ = _
      rw [(store_transaction_frame _ _ _).2.2.2.2.1]
      split
      · rw [(redeem_voucher_frame _ _ _ _).2.2.2.2.1,
          (transfer_token_frame _ _ _ _).2.2.2.2.1,
          (check_transaction_frame _ _ _).2.2.2.2.2.1]
      · rw [(transfer_token_frame _ _ _ _).2.2.2.2.1,
          (check_transaction_frame _ _ _).2.2.2.2.2.1]
    · exact verify_eq_false_of_stored _ _ _ (mapGet_mapSet_self _ _ _)
        (Or.inl rfl)

/-- **C2** (evaluating the defect): for every call of `execute_transfer`
that returns (so its transfer is `completed` and stored, its fields never
modified afterwards), `verify_transaction_signature` on its transaction id
returns `False` — not `True` as specified.  The signature stored at
completion time was computed over the payload with `status = "pending"` and
a `signature` key holding `None`; re-verification recomputes over the stored
payload with `status = "completed"` and the `signature` key popped, so the
two canonical payloads never coincide. -/
theorem completed_transfer_fails_verification (s : SystemState)
    (sender_wallet_id receiver_wallet_id token_id : String)
    (voucher_id : Option String) (transaction_id ts : String)
    (h : (execute_transfer s sender_wallet_id receiver_wallet_id token_id
      voucher_id transaction_id ts).1.isOk = true) :
    (∀ t, (execute_transfer s sender_wallet_id receiver_wallet_id token_id
        voucher_id transaction_id ts).1 = Except.ok t →
      t.status = TransactionStatus.completed) ∧
    verify_transaction_signature
      (execute_transfer s sender_wallet_id receiver_wallet_id token_id
        voucher_id transaction_id ts).2 transaction_id = false := by
  rcases execute_transfer_spec s sender_wallet_id receiver_wallet_id token_id
    voucher_id transaction_id ts with ⟨hfalse, _⟩ | ⟨hok, hall⟩
  · rw [h] at hfalse
    exact absurd hfalse (by decide)
  · constructor
    · intro t ht
      exact (hall t ht).2.1
    · rcases hE : (execute_transfer s sender_wallet_id receiver_wallet_id
        token_id voucher_id transaction_id ts).1 with e | t
      · rw [hE] at hok
        simp [Except.isOk, Except.toBool] at hok
      · exact (hall t hE).2.2.2

/-- Witness for `completed_transfer_fails_verification`: transferring the
value-50 token `TOK1` from `W1` to `W2` completes, yet re-verification of
its stored signature returns `False`. -/
theorem completed_transfer_fails_verification_witness :
    (execute_transfer s_tok50 "W1" "W2" "TOK1" Option.none "TX1" tsA).1.isOk
      = true ∧
    ((∀ t, (execute_transfer s_tok50 "W1" "W2" "TOK1" Option.none "TX1"
        tsA).1 = Except.ok t → t.status = TransactionStatus.completed) ∧
     verify_transaction_signature
       (execute_transfer s_tok50 "W1" "W2" "TOK1" Option.none "TX1" tsA).2
       "TX1" = false) :=
  ⟨by decide,
   completed_transfer_fails_verification s_tok50 "W1" "W2" "TOK1" Option.none
     "TX1" tsA (by decide)⟩

theorem create_offline_frame (s : SystemState)
    (sender_wallet_id receiver_wallet_id token_id : String)
    (voucher_id : Option String) (offline_id ts : String) :
    ((create_offline_transaction s sender_wallet_id receiver_wallet_id
        token_id voucher_id offline_id ts).2.wallets = s.wallets) ∧
    ((create_offline_transaction s sender_wallet_id receiver_wallet_id
        token_id voucher_id offline_id ts).2.tokens = s.tokens) ∧
    ((create_offline_transaction s sender_wallet_id receiver_wallet_id
        token_id voucher_id offline_id ts).2.vouchers = s.vouchers) ∧
    ((create_offline_transaction s sender_wallet_id receiver_wallet_id
        token_id voucher_id offline_id ts).2.aml_registry = s.aml_registry) ∧
    ((create_offline_transaction s sender_wallet_id receiver_wallet_id
        token_id voucher_id offline_id ts).2.entries = s.entries) ∧
    ((create_offline_transaction s sender_wallet_id receiver_wallet_id
        token_id voucher_id offline_id ts).2.transactions = s.transactions) := by
  simp only [create_offline_transaction]
  repeat
    first
    | exact ⟨rfl, rfl, rfl, rfl, rfl, rfl⟩
    | split

theorem sign_offline_frame (s : SystemState) (offline_id wallet_id : String)
    (signature : Sig) :
    ((sign_offline_transaction s offline_id wallet_id signature).2.wallets =
      s.wallets) ∧
    ((sign_offline_transaction s offline_id wallet_id signature).2.tokens =
      s.tokens) ∧
    ((sign_offline_transaction s offline_id wallet_id signature).2.vouchers =
      s.vouchers) ∧
    ((sign_offline_transaction s offline_id wallet_id signature).2.aml_registry
      = s.aml_registry) ∧
    ((sign_offline_transaction s offline_id wallet_id signature).2.entries =
      s.entries) ∧
    ((sign_offline_transaction s offline_id wallet_id signature).2.transactions
      = s.transactions) := by
  simp only [sign_offline_transaction]
  repeat
    first
    | exact ⟨rfl, rfl, rfl, rfl, rfl, rfl⟩
    | split

theorem sync_with_ledger_frame (s : SystemState) (offline_id now_ts : String) :
    ((sync_with_ledger s offline_id now_ts).2.transactions =
      s.transactions) ∧
    ((sync_with_ledger s offline_id now_ts).2.aml_registry =
      s.aml_registry) ∧
    ((sync_with_ledger s offline_id now_ts).2.authority_contacted =
      s.authority_contacted) := by
  simp only [sync_with_ledger]
  repeat
    first
    | solve
      | (refine ⟨?_, ?_, ?_⟩ <;>
          simp [store_transaction_frame, transfer_token_frame,
            redeem_voucher_frame])
    | split

theorem completedInv_step {s s' : SystemState} (hstep : Step s s')
    (hinv : CompletedInv s) : CompletedInv s' := by
  cases hstep with
  | createWallet wallet_id private_key hfresh hid =>
    intro p hp
    exact hinv p (by
      rwa [(create_wallet_frame s wallet_id private_key).2.2.2.2.2.1] at hp)
  | issueToken value owner_wallet_id token_id hfresh =>
    intro p hp
    exact hinv p (by
      rwa [(issue_token_frame s value owner_wallet_id token_id).2.2.2.2.1] at hp)
  | transferToken token_id sender_wallet_id receiver_wallet_id =>
    intro p hp
    exact hinv p (by
      rwa [(transfer_token_frame s token_id sender_wallet_id
        receiver_wallet_id).2.2.2.2.1] at hp)
  | issueVoucher wallet_id value_limit voucher_id ts hfresh =>
    intro p hp
    exact hinv p (by
      rwa [(issue_voucher_frame s wallet_id value_limit voucher_id
        ts).2.2.2.2.1] at hp)
  | redeemVoucher voucher_id transaction_id transaction_value =>
    intro p hp
    exact hinv p (by
      rwa [(redeem_voucher_frame s voucher_id transaction_id
        transaction_value).2.2.2.2.1] at hp)
  | checkTransaction transaction token =>
    intro p hp
    exact hinv p (by
      rwa [(check_transaction_frame s transaction token).2.2.2.2.2.1] at hp)
  | executeTransfer sender_wallet_id receiver_wallet_id token_id voucher_id
      transaction_id ts hfresh =>
    intro p hp
    rcases execute_transfer_spec s sender_wallet_id receiver_wallet_id
      token_id voucher_id transaction_id ts with ⟨_, htr⟩ | ⟨hok, hall⟩
    · exact hinv p (by rwa [htr] at hp)
    · rcases hE : (execute_transfer s sender_wallet_id receiver_wallet_id
        token_id voucher_id transaction_id ts).1 with e | t
      · rw [hE] at hok
        simp [Except.isOk, Except.toBool] at hok
      · obtain ⟨-, hstat, htr, -⟩ := hall t hE
        rw [htr] at hp
        rcases mem_mapSet hp with hmem | heq
        · exact hinv p hmem
        · rw [heq]
          exact hstat
  | createOffline sender_wallet_id receiver_wallet_id token_id voucher_id
      offline_id ts hfresh =>
    intro p hp
    exact hinv p (by
      rwa [(create_offline_frame s sender_wallet_id receiver_wallet_id
        token_id voucher_id offline_id ts).2.2.2.2.2] at hp)
  | signOffline offline_id wallet_id signature =>
    intro p hp
    exact hinv p (by
      rwa [(sign_offline_frame s offline_id wallet_id signature).2.2.2.2.2]
        at hp)
  | syncLedger offline_id now_ts =>
    intro p hp
    exact hinv p (by
      rwa [(sync_with_ledger_frame s offline_id now_ts).1] at hp)

/-- **C10** Only completed transfers are stored: in every reachable state,
every transaction in the engine's store has status `completed`;
consequently `get_failed_transactions` is always empty and every query
surface (list-all, by-wallet, anonymous, AML-flagged) returns only
`completed` transfers.  Moreover, whenever `execute_transfer` fails (raises),
the failed transaction object is not added: the store — and hence
`get_transaction` on any id — is exactly as before the call. -/
theorem only_completed_transfers_stored (s : SystemState)
    (h : Reachable s) :
    (∀ p, p ∈ s.transactions →
      p.2.status = TransactionStatus.completed) ∧
    get_failed_transactions s = [] ∧
    (∀ t, t ∈ list_all_transactions s →
      t.status = TransactionStatus.completed) ∧
    (∀ wallet_id t, t ∈ get_transactions_by_wallet s wallet_id →
      t.status = TransactionStatus.completed) ∧
    (∀ t, t ∈ get_anonymous_transactions s →
      t.status = TransactionStatus.completed) ∧
    (∀ t, t ∈ get_aml_flagged_transactions s →
      t.status = TransactionStatus.completed) ∧
    (∀ sender_wallet_id receiver_wallet_id token_id voucher_id
        transaction_id ts,
      (execute_transfer s sender_wallet_id receiver_wallet_id token_id
        voucher_id transaction_id ts).1.isOk = false →
      ∀ lookup_id,
        get_transaction (execute_transfer s sender_wallet_id
          receiver_wallet_id token_id voucher_id transaction_id ts).2
          lookup_id = get_transaction s lookup_id) := by
  have hinv : CompletedInv s := by
    induction h with
    | refl =>
      intro p hp
      simp [SystemState.empty] at hp
    | tail hsteps hstep ih => exact completedInv_step hstep ih
  have hall : ∀ t, t ∈ list_all_transactions s →
      t.status = TransactionStatus.completed := by
    intro t ht
    rcases List.mem_map.mp ht with ⟨p, hp, hpt⟩
    rw [← hpt]
    exact hinv p hp
  refine ⟨hinv, ?_, hall, ?_, ?_, ?_, ?_⟩
  · rw [get_failed_transactions, List.filter_eq_nil_iff]
    intro t ht
    have := hall t ht
    simp [this]
  · intro wallet_id t ht
    exact hall t (List.mem_of_mem_filter ht)
  · intro t ht
    exact hall t (List.mem_of_mem_filter ht)
  · intro t ht
    exact hall t (List.mem_of_mem_filter ht)
  · intro sender_wallet_id receiver_wallet_id token_id voucher_id
      transaction_id ts hfail lookup_id
    rcases execute_transfer_spec s sender_wallet_id receiver_wallet_id
      token_id voucher_id transaction_id ts with ⟨_, htr⟩ | ⟨hok, _⟩
    · unfold get_transaction
      rw [htr]
    · rw [hfail] at hok
      exact absurd hok (by decide)

/-- Witness for `only_completed_transfers_stored`: the state after the
completed `W1 → W2` transfer of `TOK1` is reachable, and its stores satisfy
the conclusions; a failing `execute_transfer` (unknown token) mutates
nothing in the store. -/
theorem only_completed_transfers_stored_witness :
    Reachable c2_run.2 ∧
    get_failed_transactions c2_run.2 = [] := by
  have hreach : Reachable c2_run.2 := by
    refine Relation.ReflTransGen.tail (Relation.ReflTransGen.tail
      (Relation.ReflTransGen.tail (Relation.ReflTransGen.tail
        Relation.ReflTransGen.refl
        (Step.createWallet SystemState.empty "W1" "K1" rfl (by decide)))
        (Step.createWallet s_w1 "W2" "K2" rfl (by decide)))
      (Step.issueToken s_w2 50 "W1" "TOK1" rfl))
      (Step.executeTransfer s_tok50 "W1" "W2" "TOK1" Option.none "TX1" tsA rfl)
  exact ⟨hreach, (only_completed_transfers_stored c2_run.2 hreach).2.1⟩

theorem store_transaction_entries_shape (s : SystemState) (v : TxView)
    (now_ts : String) :
    ∃ entry, (store_transaction s v now_ts).2.entries = s.entries ++ [entry] ∧
      entry.entry_type =
        (if v.aml_flagged then LedgerEntryType.amlFlagged
         else if v.is_anonymous then LedgerEntryType.anonymous
         else LedgerEntryType.nonAnonymous) ∧
      entry.transaction_id = v.transaction_id ∧
      entry.timestamp = (if v.timestamp = "" then now_ts else v.timestamp) :=
  ⟨_, rfl, rfl, rfl, rfl⟩

theorem check_transaction_flag_registry (s : SystemState) (t : Transaction)
    (tok : Token) :
    ((check_transaction s t tok).1.status = ComplianceStatus.flagged →
      ∃ e, (check_transaction s t tok).2.aml_registry =
          s.aml_registry ++ [e] ∧
        e.transaction_id = t.transaction_id) ∧
    ((check_transaction s t tok).1.status = ComplianceStatus.approved →
      (check_transaction s t tok).2.aml_registry = s.aml_registry) ∧
    ((check_transaction s t tok).1.status = ComplianceStatus.approved ∨
      (check_transaction s t tok).1.status = ComplianceStatus.flagged) := by
  by_cases hv : tok.value > high_value_threshold <;> by_cases ha : t.is_anonymous
  · rw [check_transaction_high_anon s t tok hv ha]
    exact ⟨fun _ => ⟨_, rfl, rfl⟩, (by intro hc; simp at hc), Or.inr rfl⟩
  · have ha' : t.is_anonymous = false := by simpa using ha
    rw [check_transaction_high_nonanon s t tok hv ha']
    exact ⟨fun _ => ⟨_, rfl, rfl⟩, (by intro hc; simp at hc), Or.inr rfl⟩
  · rw [check_transaction_low_anon s t tok hv ha]
    exact ⟨(by intro hc; simp at hc), fun _ => rfl, Or.inl rfl⟩
  · have ha' : t.is_anonymous = false := by simpa using ha
    rw [check_transaction_low_nonanon s t tok hv ha']
    exact ⟨(by intro hc; simp at hc), fun _ => rfl, Or.inl rfl⟩

theorem execute_transfer_registry (s : SystemState)
    (sender_wallet_id receiver_wallet_id token_id : String)
    (voucher_id : Option String) (transaction_id ts : String) :
    ∀ t, (execute_transfer s sender_wallet_id receiver_wallet_id token_id
        voucher_id transaction_id ts).1 = Except.ok t →
      (t.aml_flagged = true →
        ∃ e, (execute_transfer s sender_wallet_id receiver_wallet_id token_id
            voucher_id transaction_id ts).2.aml_registry =
          s.aml_registry ++ [e] ∧ e.transaction_id = transaction_id) ∧
      (t.aml_flagged = false →
        (execute_transfer s sender_wallet_id receiver_wallet_id token_id
          voucher_id transaction_id ts).2.aml_registry = s.aml_registry) := by
  simp only [execute_transfer]
  split
  · intro t ht; exact absurd ht (by simp)
  split
  · intro t ht; exact absurd ht (by simp)
  split
  · intro t ht; exact absurd ht (by simp)
  split
  · intro t ht; exact absurd ht (by simp)
  rename_i token htok
  split
  · intro t ht; exact absurd ht (by simp)
  split
  · intro t ht; exact absurd ht (by simp)
  rename_i is_anonymous hanon
  split
  · intro t ht; exact absurd ht (by simp)
  split
  · intro t ht; exact absurd ht (by simp)
  intro t ht
  have hcr := check_transaction_flag_registry s
    { transaction_id := transaction_id, sender_wallet_id := sender_wallet_id,
      receiver_wallet_id := receiver_wallet_id, token_id := token_id,
      voucher_id := voucher_id, is_anonymous := is_anonymous,
      status := TransactionStatus.pending, timestamp := ts,
      aml_flagged := false, aml_reason := Option.none,
      signature := Option.none } token
  split at ht <;>
  · injection ht with ht
    subst ht
    constructor
    · intro hflag
      have hstat : (check_transaction s
          { transaction_id := transaction_id,
            sender_wallet_id := sender_wallet_id,
            receiver_wallet_id := receiver_wallet_id, token_id := token_id,
            voucher_id := voucher_id, is_anonymous := is_anonymous,
            status := TransactionStatus.pending, timestamp := ts,
            aml_flagged := false, aml_reason := Option.none,
            signature := Option.none } token).1.status =
          ComplianceStatus.flagged := by
        rcases hcr.2.2 with happ | hflg
        · rw [happ] at hflag
          simp [ComplianceStatus.value] at hflag
        · exact hflg
      obtain ⟨e, hreg, hid⟩ := hcr.1 hstat
      refine ⟨e, ?_, hid⟩
      simp only [store_transaction_frame]
      split
      · simp only [redeem_voucher_frame, transfer_token_frame]
        exact hreg
      · simp only [transfer_token_frame]
        exact hreg
    · intro hflag
      have hstat : (check_transaction s
          { transaction_id := transaction_id,
            sender_wallet_id := sender_wallet_id,
            receiver_wallet_id := receiver_wallet_id, token_id := token_id,
            voucher_id := voucher_id, is_anonymous := is_anonymous,
            status := TransactionStatus.pending, timestamp := ts,
            aml_flagged := false, aml_reason := Option.none,
            signature := Option.none } token).1.status =
          ComplianceStatus.approved := by
        rcases hcr.2.2 with happ | hflg
        · exact happ
        · rw [hflg] at hflag
          simp [ComplianceStatus.value] at hflag
      have hreg := hcr.2.1 hstat
      simp only [store_transaction_frame]
      split
      · simp only [redeem_voucher_frame, transfer_token_frame]
        exact hreg
      · simp only [transfer_token_frame]
        exact hreg

theorem mem_store_entries {s : SystemState} {v : TxView} {now_ts : String}
    {e : LedgerEntry}
    (he : e ∈ (store_transaction s v now_ts).2.entries)
    (hv : v.aml_flagged = false) :
    e ∈ s.entries ∨ e.entry_type ≠ LedgerEntryType.amlFlagged := by
  obtain ⟨entry, heq, htype, -, -⟩ := store_transaction_entries_shape s v now_ts
  rw [heq] at he
  rcases List.mem_append.mp he with h | h
  · exact Or.inl h
  · right
    have hee : e = entry := by simpa using h
    rw [hee, htype, hv]
    split
    · rename_i hcontra
      simp at hcontra
    · split <;> simp

theorem sync_entries_not_flagged (s : SystemState)
    (offline_id now_ts : String) (e : LedgerEntry)
    (he : e ∈ (sync_with_ledger s offline_id now_ts).2.entries) :
    e ∈ s.entries ∨ e.entry_type ≠ LedgerEntryType.amlFlagged := by
  simp only [sync_with_ledger] at he
  split at he
  · exact Or.inl he
  split at he
  · exact Or.inl he
  split at he
  · exact Or.inl (by simpa [transfer_token_frame] using he)
  split at he
  · split at he <;>
      exact Or.inl
        (by simpa [redeem_voucher_frame, transfer_token_frame] using he)
  · dsimp only [] at he
    rcases mem_store_entries he rfl with h | h
    · refine Or.inl ?_
      revert h
      split <;> intro h <;>
        simpa [redeem_voucher_frame, transfer_token_frame] using h
    · exact Or.inr h

/-- **C1** (counterexample to the claim as stated): the offline transfer
`OF1` of a value-150 token — which `check_transaction` flags with risk
score 1.0 when asked — is dual-signed and reaches status `synced` through
`sync_with_ledger`, and its ledger entry is written, yet the AML registry
is empty before and after the sync: no compliance check ever ran on the
offline path (`OfflineManager.set_managers` receives no compliance
manager). -/
theorem offline_sync_skips_compliance_counterexample :
    (check_transaction SystemState.empty
       { transaction_id := "OF1", sender_wallet_id := "W1",
         receiver_wallet_id := "W2", token_id := "TOK1",
         timestamp := tsA } tok_150).1.status = ComplianceStatus.flagged ∧
    c1_run.1 = true ∧
    ((get_offline_transaction c1_run.2 "OF1").map (fun tx => tx.status)) =
      some OfflineStatus.synced ∧
    c1_s3.aml_registry = [] ∧
    c1_run.2.aml_registry = [] ∧
    (c1_run.2.entries.map (fun e => e.transaction_id)) = ["OF1"] := by
  decide

/-- **C1** (amended): only the online path is compliance-scored.  A transfer
completed by `execute_transfer` was scored by the `ComplianceEngine` before
its ledger entry was written: it returns flagged exactly when the call
appended one `AMLEntry` carrying its transaction id, and appends nothing
when approved.  An offline transfer synced by `sync_with_ledger` receives no
compliance check: the sync leaves the AML registry unchanged, and the ledger
entry it writes is never classified `aml_flagged`. -/
theorem compliance_scoring_online_only (s : SystemState) :
    (∀ offline_id now_ts,
      (sync_with_ledger s offline_id now_ts).2.aml_registry =
        s.aml_registry) ∧
    (∀ offline_id now_ts e,
      e ∈ (sync_with_ledger s offline_id now_ts).2.entries →
      e ∈ s.entries ∨ e.entry_type ≠ LedgerEntryType.amlFlagged) ∧
    (∀ sender_wallet_id receiver_wallet_id token_id voucher_id
        transaction_id ts t,
      (execute_transfer s sender_wallet_id receiver_wallet_id token_id
        voucher_id transaction_id ts).1 = Except.ok t →
      (t.aml_flagged = true →
        ∃ e, (execute_transfer s sender_wallet_id receiver_wallet_id token_id
            voucher_id transaction_id ts).2.aml_registry =
          s.aml_registry ++ [e] ∧ e.transaction_id = transaction_id) ∧
      (t.aml_flagged = false →
        (execute_transfer s sender_wallet_id receiver_wallet_id token_id
          voucher_id transaction_id ts).2.aml_registry = s.aml_registry)) := by
  refine ⟨?_, ?_, ?_⟩
  · intro offline_id now_ts
    exact (sync_with_ledger_frame s offline_id now_ts).2.1
  · intro offline_id now_ts e he
    exact sync_entries_not_flagged s offline_id now_ts e he
  · intro sender_wallet_id receiver_wallet_id token_id voucher_id
      transaction_id ts t ht
    exact execute_transfer_registry s sender_wallet_id receiver_wallet_id
      token_id voucher_id transaction_id ts t ht

/-- The concrete completed transaction returned by `c2_run`. -/
def c2_tx : Transaction :=
  { transaction_id := "TX1", sender_wallet_id := "W1",
    receiver_wallet_id := "W2", token_id := "TOK1",
    voucher_id := Option.none, is_anonymous := false,
    status := TransactionStatus.completed, timestamp := tsA,
    aml_flagged := false,
    aml_reason := some "Non-anonymous transaction",
    signature := some
      { payload := [("aml_flagged", PyVal.bool false),
          ("aml_reason", PyVal.str "Non-anonymous transaction"),
          ("is_anonymous", PyVal.bool false),
          ("receiver_wallet_id", PyVal.str "W2"),
          ("sender_wallet_id", PyVal.str "W1"),
          ("signature", PyVal.none),
          ("status", PyVal.str "pending"),
          ("timestamp", PyVal.str tsA),
          ("token_id", PyVal.str "TOK1"),
          ("transaction_id", PyVal.str "TX1"),
          ("voucher_id", PyVal.none)],
        signing_key := "K1" } }

/-- Witness for `compliance_scoring_online_only`: syncing the signed `OF1`
leaves the AML registry unchanged, and the completed online transfer of the
value-50 token (not flagged) appends no AML entry. -/
theorem compliance_scoring_online_only_witness :
    (sync_with_ledger c1_s3 "OF1" tsB).2.aml_registry = c1_s3.aml_registry ∧
    (c2_run.1 = Except.ok c2_tx ∧ c2_tx.aml_flagged = false ∧
     c2_run.2.aml_registry = s_tok50.aml_registry) :=
  ⟨(compliance_scoring_online_only c1_s3).1 "OF1" tsB,
   by
    have h := ((compliance_scoring_online_only s_tok50).2.2 "W1" "W2" "TOK1"
      Option.none "TX1" tsA c2_tx (by rfl)).2 (by decide)
    exact ⟨rfl, rfl, h⟩⟩

theorem execute_transfer_offline_frame (s : SystemState)
    (sender_wallet_id receiver_wallet_id token_id : String)
    (voucher_id : Option String) (transaction_id ts : String) :
    (execute_transfer s sender_wallet_id receiver_wallet_id token_id
      voucher_id transaction_id ts).2.offline_transactions =
      s.offline_transactions := by
  simp only [execute_transfer]
  repeat
    first
    | solve
      | simp [store_transaction_frame, transfer_token_frame,
          redeem_voucher_frame, check_transaction_frame]
    | split

theorem create_offline_record_evolution (s : SystemState)
    (sender_wallet_id receiver_wallet_id token_id : String)
    (voucher_id : Option String) (offline_id ts oid : String)
    (hfresh : mapGet s.offline_transactions offline_id = Option.none) :
    mapGet (create_offline_transaction s sender_wallet_id receiver_wallet_id
        token_id voucher_id offline_id ts).2.offline_transactions oid =
      mapGet s.offline_transactions oid ∨
    (mapGet s.offline_transactions oid = Option.none ∧
      ∃ tx', mapGet (create_offline_transaction s sender_wallet_id
          receiver_wallet_id token_id voucher_id offline_id
          ts).2.offline_transactions oid = some tx' ∧
        tx'.status = OfflineStatus.pending) := by
  by_cases hoid : offline_id = oid
  · subst hoid
    simp only [create_offline_transaction]
    repeat
      first
      | exact Or.inl rfl
      | exact Or.inr ⟨hfresh, _, mapGet_mapSet_self _ _ _, rfl⟩
      | split
  · left
    simp only [create_offline_transaction]
    repeat
      first
      | rfl
      | exact mapGet_mapSet_ne _ _ hoid
      | split

theorem sign_offline_record_evolution (s : SystemState)
    (offline_id wallet_id : String) (signature : Sig) (oid : String) :
    mapGet (sign_offline_transaction s offline_id wallet_id
        signature).2.offline_transactions oid =
      mapGet s.offline_transactions oid ∨
    (∃ tx tx', mapGet s.offline_transactions oid = some tx ∧
      mapGet (sign_offline_transaction s offline_id wallet_id
        signature).2.offline_transactions oid = some tx' ∧
      offline_status_edge tx.status tx'.status) := by
  by_cases hoid : offline_id = oid
  · subst hoid
    simp only [sign_offline_transaction]
    split
    · exact Or.inl rfl
    rename_i offline_tx heq
    split
    · exact Or.inl rfl
    split
    · refine Or.inr ⟨offline_tx, _, heq, mapGet_mapSet_self _ _ _, ?_⟩
      split
      · exact Or.inr (Or.inl rfl)
      · exact Or.inl rfl
    split
    · refine Or.inr ⟨offline_tx, _, heq, mapGet_mapSet_self _ _ _, ?_⟩
      split
      · exact Or.inr (Or.inl rfl)
      · exact Or.inl rfl
    · exact Or.inl rfl
  · left
    simp only [sign_offline_transaction]
    repeat
      first
      | rfl
      | exact mapGet_mapSet_ne _ _ hoid
      | split

theorem sync_record_evolution (s : SystemState)
    (offline_id now_ts oid : String) :
    mapGet (sync_with_ledger s offline_id
        now_ts).2.offline_transactions oid =
      mapGet s.offline_transactions oid ∨
    (∃ tx tx', mapGet s.offline_transactions oid = some tx ∧
      mapGet (sync_with_ledger s offline_id
        now_ts).2.offline_transactions oid = some tx' ∧
      offline_status_edge tx.status tx'.status) := by
  by_cases hoid : offline_id = oid
  · subst hoid
    simp only [sync_with_ledger]
    split
    · exact Or.inl rfl
    rename_i offline_tx heq
    split
    · exact Or.inl rfl
    rename_i hne
    have hst : offline_tx.status = OfflineStatus.signed := not_not.mp hne
    split
    · exact Or.inr ⟨offline_tx, _, heq, mapGet_mapSet_self _ _ _,
        Or.inr (Or.inr ⟨hst, Or.inr rfl⟩)⟩
    split
    · exact Or.inr ⟨offline_tx, _, heq, mapGet_mapSet_self _ _ _,
        Or.inr (Or.inr ⟨hst, Or.inr rfl⟩)⟩
    · exact Or.inr ⟨offline_tx, _, heq, mapGet_mapSet_self _ _ _,
        Or.inr (Or.inr ⟨hst, Or.inl rfl⟩)⟩
  · left
    simp only [sync_with_ledger]
    repeat
      first
      | rfl
      | solve
        | (dsimp only []
           rw [mapGet_mapSet_ne _ _ hoid]
           simp [store_transaction_frame, transfer_token_frame,
             redeem_voucher_frame])
      | split

/-- **C7** (amended): the offline state machine and its two-phase gating.
Across any system step, an offline record either keeps its status, (re-)
enters `signed` through `sign_offline_transaction` — which checks signatures
but never the current status, so `synced` and `failed` records can be
re-signed back to `signed` — or moves from `signed` to `synced` or `failed`
through a sync; new records start `pending`.  And `sync_with_ledger` on a
record whose status is not `signed` (or on an unknown id) returns `false`
with the state — token ownership, vouchers, ledger entries and the offline
record itself — fully unchanged. -/
theorem offline_status_machine :
    (∀ s s', Step s s' → ∀ oid,
      mapGet s'.offline_transactions oid =
        mapGet s.offline_transactions oid ∨
      (mapGet s.offline_transactions oid = Option.none ∧
        ∃ tx', mapGet s'.offline_transactions oid = some tx' ∧
          tx'.status = OfflineStatus.pending) ∨
      (∃ tx tx', mapGet s.offline_transactions oid = some tx ∧
        mapGet s'.offline_transactions oid = some tx' ∧
        offline_status_edge tx.status tx'.status)) ∧
    (∀ s oid now_ts,
      (∀ tx, mapGet s.offline_transactions oid = some tx →
        tx.status ≠ OfflineStatus.signed) →
      sync_with_ledger s oid now_ts = (false, s)) := by
  constructor
  · intro s s' hstep oid
    cases hstep with
    | createWallet wallet_id private_key hfresh hid =>
      exact Or.inl (by
        rw [(create_wallet_frame s wallet_id private_key).2.2.2.2.2.2])
    | issueToken value owner_wallet_id token_id hfresh =>
      exact Or.inl (by
        rw [(issue_token_frame s value owner_wallet_id token_id).2.2.2.2.2])
    | transferToken token_id sender_wallet_id receiver_wallet_id =>
      exact Or.inl (by
        rw [(transfer_token_frame s token_id sender_wallet_id
          receiver_wallet_id).2.2.2.2.2.1])
    | issueVoucher wallet_id value_limit voucher_id ts hfresh =>
      exact Or.inl (by
        rw [(issue_voucher_frame s wallet_id value_limit voucher_id
          ts).2.2.2.2.2])
    | redeemVoucher voucher_id transaction_id transaction_value =>
      exact Or.inl (by
        rw [(redeem_voucher_frame s voucher_id transaction_id
          transaction_value).2.2.2.2.2.1])
    | checkTransaction transaction token =>
      exact Or.inl (by
        rw [(check_transaction_frame s transaction token).2.2.2.2.2.2])
    | executeTransfer sender_wallet_id receiver_wallet_id token_id voucher_id
        transaction_id ts hfresh =>
      exact Or.inl (by
        rw [execute_transfer_offline_frame s sender_wallet_id
          receiver_wallet_id token_id voucher_id transaction_id ts])
    | createOffline sender_wallet_id receiver_wallet_id token_id voucher_id
        offline_id ts hfresh =>
      rcases create_offline_record_evolution s sender_wallet_id
        receiver_wallet_id token_id voucher_id offline_id ts oid hfresh with
        h | h
      · exact Or.inl h
      · exact Or.inr (Or.inl h)
    | signOffline offline_id wallet_id signature =>
      rcases sign_offline_record_evolution s offline_id wallet_id signature
        oid with h | h
      · exact Or.inl h
      · exact Or.inr (Or.inr h)
    | syncLedger offline_id now_ts =>
      rcases sync_record_evolution s offline_id now_ts oid with h | h
      · exact Or.inl h
      · exact Or.inr (Or.inr h)
  · intro s oid now_ts h
    simp only [sync_with_ledger]
    split
    · rfl
    · rename_i offline_tx heq
      rw [if_pos (h offline_tx heq)]

/-- **C7** (counterexample to the claim as stated): after `OF1` is synced,
re-submitting the sender's signature succeeds and moves the record from
`synced` back to `signed` — a transition the claimed state machine
(pending → signed → synced, signed → failed) forbids. -/
theorem offline_resign_counterexample :
    ((get_offline_transaction c1_run.2 "OF1").map (fun tx => tx.status)) =
      some OfflineStatus.synced ∧
    c7_run.1 = true ∧
    ((get_offline_transaction c7_run.2 "OF1").map (fun tx => tx.status)) =
      some OfflineStatus.signed := by
  decide

/-- The pending record of `OF1` right after creation. -/
def c1_tx_pending : OfflineTransaction :=
  { offline_id := "OF1", sender_wallet_id := "W1", receiver_wallet_id := "W2",
    token_id := "TOK1", value := 150, created_timestamp := tsA }

/-- Witness for `offline_status_machine`: syncing the still-`pending` `OF1`
returns `false` and changes nothing, and the receiver's signing step on the
once-signed record satisfies the status-edge disjunction. -/
theorem offline_status_machine_witness :
    sync_with_ledger c1_s1 "OF1" tsB = (false, c1_s1) ∧
    (mapGet c1_s3.offline_transactions "OF1" =
       mapGet c1_s2.offline_transactions "OF1" ∨
     (mapGet c1_s2.offline_transactions "OF1" = Option.none ∧
       ∃ tx', mapGet c1_s3.offline_transactions "OF1" = some tx' ∧
         tx'.status = OfflineStatus.pending) ∨
     (∃ tx tx', mapGet c1_s2.offline_transactions "OF1" = some tx ∧
       mapGet c1_s3.offline_transactions "OF1" = some tx' ∧
       offline_status_edge tx.status tx'.status)) :=
  ⟨offline_status_machine.2 c1_s1 "OF1" tsB (by
      intro tx htx
      have h2 : (some c1_tx_pending : Option OfflineTransaction) = some tx :=
        (show mapGet c1_s1.offline_transactions "OF1" =
          some c1_tx_pending by rfl).symm.trans htx
      injection h2 with h2
      rw [← h2]
      decide),
   offline_status_machine.1 c1_s2 c1_s3
     (Step.signOffline c1_s2 "OF1" "W2" ⟨c1_data, "K2"⟩) "OF1"⟩

theorem transfer_token_success {s : SystemState}
    {token_id sender receiver : String} {token : Token}
    (h3 : mapGet s.tokens token_id = some token)
    (h4 : token.owner_wallet_id = sender)
    (h5 : wallet_exists s sender = true)
    (h6 : wallet_exists s receiver = true) :
    (transfer_token s token_id sender receiver).1 = true ∧
    (transfer_token s token_id sender receiver).2.tokens =
      mapSet s.tokens token_id (token.transfer_ownership receiver).1 := by
  simp only [transfer_token, h3]
  rw [if_neg (by simp [h4]), if_neg (by simp [h5, h6])]
  constructor
  · rfl
  · dsimp only []
    repeat
      first
      | rfl
      | split

/-- **C8** Successful sync: an offline transfer in status `signed` whose
token is still owned by the sender (with both wallets present and the
receiver id non-empty), whose voucher — if any — is still usable for the
snapshotted value, and whose creation timestamp is non-empty, syncs
successfully: `sync_with_ledger` returns `true`, reassigns the token to the
receiver, marks the voucher used by the offline id, appends exactly one
ledger entry carrying the offline id as transaction id and the creation
timestamp as timestamp, and sets the record to `synced` with the sync
timestamp. -/
theorem sync_success (s : SystemState) (offline_id now_ts : String)
    (tx : OfflineTransaction) (token : Token)
    (h1 : mapGet s.offline_transactions offline_id = some tx)
    (h2 : tx.status = OfflineStatus.signed)
    (h3 : mapGet s.tokens tx.token_id = some token)
    (h4 : token.owner_wallet_id = tx.sender_wallet_id)
    (h5 : wallet_exists s tx.sender_wallet_id = true)
    (h6 : wallet_exists s tx.receiver_wallet_id = true)
    (h7 : tx.receiver_wallet_id ≠ "")
    (h8 : ∀ vid, tx.voucher_id = some vid →
      ∃ v, mapGet s.vouchers vid = some v ∧
        v.can_be_used_for_value tx.value = true)
    (h9 : tx.created_timestamp ≠ "") :
    (sync_with_ledger s offline_id now_ts).1 = true ∧
    mapGet (sync_with_ledger s offline_id now_ts).2.tokens tx.token_id =
      some { token with owner_wallet_id := tx.receiver_wallet_id } ∧
    (∀ vid, tx.voucher_id = some vid →
      ∃ v, mapGet s.vouchers vid = some v ∧
        mapGet (sync_with_ledger s offline_id now_ts).2.vouchers vid =
          some { v with is_used := true,
                        used_in_transaction := some tx.offline_id }) ∧
    (∃ entry, (sync_with_ledger s offline_id now_ts).2.entries =
        s.entries ++ [entry] ∧
      entry.transaction_id = tx.offline_id ∧
      entry.timestamp = tx.created_timestamp) ∧
    mapGet (sync_with_ledger s offline_id now_ts).2.offline_transactions
        offline_id =
      some { tx with status := OfflineStatus.synced,
                     synced_timestamp := some now_ts } := by
  have htr := transfer_token_success h3 h4 h5 h6
  simp only [sync_with_ledger, h1]
  rw [if_neg (by simp [h2])]
  rw [if_neg (by simp [htr.1])]
  rcases hvid : tx.voucher_id with _ | vid
  · dsimp only []
    rw [if_neg (by simp)]
    refine ⟨rfl, ?_, ?_, ?_, ?_⟩
    · dsimp only []
      simp only [store_transaction_frame]
      rw [htr.2, mapGet_mapSet_self]
      simp [Token.transfer_ownership, h7]
    · intro vid hv
      exact absurd hv (by simp)
    · obtain ⟨entry, hent, htype, hid, hts⟩ :=
        store_transaction_entries_shape
          (transfer_token s tx.token_id tx.sender_wallet_id
            tx.receiver_wallet_id).2 (mock_transaction tx) now_ts
      refine ⟨entry, ?_, ?_, ?_⟩
      · dsimp only []
        rw [hent]
        simp only [transfer_token_frame]
      · simpa [mock_transaction] using hid
      · rw [hts]
        simp [mock_transaction, h9]
    · dsimp only []
      exact mapGet_mapSet_self _ _ _
  · obtain ⟨v, hv, hc⟩ := h8 vid hvid
    have hv1 : mapGet (transfer_token s tx.token_id tx.sender_wallet_id
        tx.receiver_wallet_id).2.vouchers vid = some v := by
      rw [(transfer_token_frame s tx.token_id tx.sender_wallet_id
        tx.receiver_wallet_id).1]
      exact hv
    have hred := redeem_voucher_success_vouchers tx.offline_id hv1 hc
    dsimp only []
    rw [if_neg (by simp [hred.1])]
    refine ⟨rfl, ?_, ?_, ?_, ?_⟩
    · dsimp only []
      simp only [store_transaction_frame, redeem_voucher_frame]
      rw [htr.2, mapGet_mapSet_self]
      simp [Token.transfer_ownership, h7]
    · intro vid' hv'
      injection hv' with hv'
      subst hv'
      refine ⟨v, hv, ?_⟩
      dsimp only []
      simp only [store_transaction_frame]
      rw [hred.2, mapGet_mapSet_self]
    · obtain ⟨entry, hent, htype, hid, hts⟩ :=
        store_transaction_entries_shape
          (redeem_voucher (transfer_token s tx.token_id tx.sender_wallet_id
              tx.receiver_wallet_id).2 vid tx.offline_id tx.value).2
          (mock_transaction tx) now_ts
      refine ⟨entry, ?_, ?_, ?_⟩
      · dsimp only []
        rw [hent]
        simp only [redeem_voucher_frame, transfer_token_frame]
      · simpa [mock_transaction] using hid
      · rw [hts]
        simp [mock_transaction, h9]
    · dsimp only []
      exact mapGet_mapSet_self _ _ _

/-- Witness for `sync_success`: syncing the dual-signed `OF1` at `tsB`
returns `true` and marks the record `synced` with sync timestamp `tsB`. -/
theorem sync_success_witness :
    c1_run.1 = true ∧
    mapGet c1_run.2.offline_transactions "OF1" = some c1_tx_synced :=
  have h := sync_success c1_s3 "OF1" tsB c1_tx_signed
    { token_id := "TOK1", value := 150, owner_wallet_id := "W1" }
    (by decide) (by decide) (by decide) rfl rfl rfl (by decide)
    (by intro vid hv; simp [c1_tx_signed] at hv) (by decide)
  ⟨h.1, h.2.2.2.2⟩

theorem mem_add_token (w : Wallet) (token_id : String) :
    token_id ∈ (w.add_token token_id).token_balance := by
  simp only [Wallet.add_token]
  split
  · assumption
  · simp

theorem add_token_balance {w : Wallet} {token_id : String}
    (h : token_id ∉ w.token_balance) :
    (w.add_token token_id).token_balance = w.token_balance ++ [token_id] := by
  simp [Wallet.add_token, h]

theorem remove_token_balance (w : Wallet) (token_id : String) :
    (w.remove_token token_id).1.token_balance =
      if token_id ∈ w.token_balance then w.token_balance.erase token_id
      else w.token_balance := by
  simp only [Wallet.remove_token]
  split <;> simp [*]

theorem nodup_append_singleton {l : List String} {a : String}
    (h : l.Nodup) (ha : a ∉ l) : (l ++ [a]).Nodup := by
  simp [List.nodup_append, h, ha]

theorem tokenInv_create_wallet {s : SystemState} (hinv : TokenOwnershipInv s)
    (wallet_id private_key : String) (hid : wallet_id ≠ "") :
    TokenOwnershipInv (create_wallet s wallet_id private_key).2 := by
  constructor
  · dsimp only [create_wallet]
    rw [mapGet_mapSet, if_neg hid]
    exact hinv.1
  · intro wid w hwid
    dsimp only [create_wallet] at hwid ⊢
    rw [mapGet_mapSet] at hwid
    split at hwid
    · injection hwid with hwid
      subst hwid
      exact ⟨List.nodup_nil, by intro tid htid; simp at htid⟩
    · exact hinv.2 wid w hwid

theorem tokenInv_issue_token {s : SystemState} (hinv : TokenOwnershipInv s)
    (value : Int) (owner_wallet_id token_id : String)
    (hfresh : mapGet s.tokens token_id = Option.none) :
    TokenOwnershipInv (issue_token s value owner_wallet_id token_id).2 := by
  simp only [issue_token]
  split
  · exact hinv
  split
  · exact hinv
  rename_i hwex hvalid
  push_neg at hvalid
  dsimp only []
  split
  · rename_i w hw
    have hnotin : token_id ∉ w.token_balance := by
      intro hmem
      obtain ⟨tok, htok, -⟩ := (hinv.2 owner_wallet_id w hw).2 token_id hmem
      rw [hfresh] at htok
      cases htok
    constructor
    · rw [mapGet_mapSet, if_neg hvalid.2.2]
      exact hinv.1
    · intro wid w' hwid
      rw [mapGet_mapSet] at hwid
      split at hwid
      · rename_i heq
        have hw' : w' = w.add_token token_id := (Option.some.inj hwid).symm
        subst hw'
        rw [add_token_balance hnotin]
        constructor
        · exact nodup_append_singleton (hinv.2 owner_wallet_id w hw).1 hnotin
        · intro tid htid
          rcases List.mem_append.mp htid with hmem | hmem
          · obtain ⟨tok, htok, hown⟩ :=
              (hinv.2 owner_wallet_id w hw).2 tid hmem
            have htne : tid ≠ token_id := by
              intro hc
              rw [hc, hfresh] at htok
              cases htok
            refine ⟨tok, ?_, hown.trans heq⟩
            rw [mapGet_mapSet, if_neg (fun hc => htne hc.symm)]
            exact htok
          · have htid2 : tid = token_id := by simpa using hmem
            subst htid2
            exact ⟨_, mapGet_mapSet_self _ _ _, heq⟩
      · obtain ⟨hnd, htr⟩ := hinv.2 wid w' hwid
        refine ⟨hnd, ?_⟩
        intro tid htid
        obtain ⟨tok, htok, hown⟩ := htr tid htid
        have htne : tid ≠ token_id := by
          intro hc
          rw [hc, hfresh] at htok
          cases htok
        refine ⟨tok, ?_, hown⟩
        rw [mapGet_mapSet, if_neg (fun hc => htne hc.symm)]
        exact htok
  · rename_i hw
    have hwex2 := not_not.mp hwex
    rw [wallet_exists, hw] at hwex2
    simp at hwex2

theorem tokenInv_transfer_token {s : SystemState} (hinv : TokenOwnershipInv s)
    (token_id sender_wallet_id receiver_wallet_id : String) :
    TokenOwnershipInv
      (transfer_token s token_id sender_wallet_id receiver_wallet_id).2 := by
  simp only [transfer_token]
  split
  · exact hinv
  rename_i token htok
  split
  · exact hinv
  rename_i hown
  split
  · exact hinv
  rename_i hw
  have hw2 := not_not.mp hw
  rw [Bool.and_eq_true] at hw2
  have howneq : token.owner_wallet_id = sender_wallet_id := not_not.mp hown
  have hsne : sender_wallet_id ≠ "" := by
    intro hc
    have h2 := hw2.1
    rw [hc, wallet_exists, hinv.1] at h2
    simp at h2
  have hrne : receiver_wallet_id ≠ "" := by
    intro hc
    have h2 := hw2.2
    rw [hc, wallet_exists, hinv.1] at h2
    simp at h2
  have htok' : (token.transfer_ownership receiver_wallet_id).1 =
      { token with owner_wallet_id := receiver_wallet_id } := by
    simp [Token.transfer_ownership, hrne]
  dsimp only []
  cases heqs : mapGet s.wallets sender_wallet_id with
  | none =>
    exfalso
    have h2 := hw2.1
    rw [wallet_exists, heqs] at h2
    simp at h2
  | some w_s =>
    obtain ⟨hnodup_s, htrace_s⟩ := hinv.2 sender_wallet_id w_s heqs
    have hnodup_ws' : (w_s.remove_token token_id).1.token_balance.Nodup := by
      rw [remove_token_balance]
      split
      · exact hnodup_s.erase _
      · exact hnodup_s
    have hnotin_ws' :
        token_id ∉ (w_s.remove_token token_id).1.token_balance := by
      rw [remove_token_balance]
      split
      · intro hmem
        exact ((List.Nodup.mem_erase_iff hnodup_s).mp hmem).1 rfl
      · assumption
    have hsub_ws' : ∀ tid ∈ (w_s.remove_token token_id).1.token_balance,
        tid ∈ w_s.token_balance := by
      rw [remove_token_balance]
      split
      · exact fun tid htid => List.erase_subset _ _ htid
      · exact fun tid htid => htid
    dsimp only []
    cases heqr : mapGet
        (mapSet s.wallets sender_wallet_id (w_s.remove_token token_id).1)
        receiver_wallet_id with
    | none =>
      exfalso
      rw [mapGet_mapSet] at heqr
      split at heqr
      · cases heqr
      · have h2 := hw2.2
        rw [wallet_exists, heqr] at h2
        simp at h2
    | some w_r =>
      have hr : (sender_wallet_id = receiver_wallet_id ∧
            w_r = (w_s.remove_token token_id).1) ∨
          (sender_wallet_id ≠ receiver_wallet_id ∧
            mapGet s.wallets receiver_wallet_id = some w_r) := by
        rw [mapGet_mapSet] at heqr
        split at heqr
        · exact Or.inl ⟨‹_›, (Option.some.inj heqr).symm⟩
        · exact Or.inr ⟨‹_›, heqr⟩
      have hnodup_r : w_r.token_balance.Nodup := by
        rcases hr with ⟨-, h2⟩ | ⟨-, h2⟩
        · rw [h2]; exact hnodup_ws'
        · exact (hinv.2 receiver_wallet_id w_r h2).1
      have hnotin_r : token_id ∉ w_r.token_balance := by
        rcases hr with ⟨-, h2⟩ | ⟨h1, h2⟩
        · rw [h2]; exact hnotin_ws'
        · intro hmem
          obtain ⟨tok, htk, ho⟩ :=
            (hinv.2 receiver_wallet_id w_r h2).2 token_id hmem
          rw [htok] at htk
          have h3 : token = tok := Option.some.inj htk
          rw [← h3, howneq] at ho
          exact h1 ho
      have htrace_r : ∀ tid ∈ w_r.token_balance,
          ∃ tok, mapGet s.tokens tid = some tok ∧
            tok.owner_wallet_id = receiver_wallet_id := by
        rcases hr with ⟨h1, h2⟩ | ⟨-, h2⟩
        · intro tid htid
          rw [h2] at htid
          obtain ⟨tok, htk, ho⟩ := htrace_s tid (hsub_ws' tid htid)
          exact ⟨tok, htk, ho.trans h1⟩
        · exact (hinv.2 receiver_wallet_id w_r h2).2
      constructor
      · dsimp only []
        rw [mapGet_mapSet, if_neg hrne, mapGet_mapSet, if_neg hsne]
        exact hinv.1
      · intro wid w hwid
        dsimp only [] at hwid ⊢
        rw [mapGet_mapSet] at hwid
        split at hwid
        · rename_i hrwid
          have hw3 : w = w_r.add_token token_id := (Option.some.inj hwid).symm
          subst hw3
          rw [add_token_balance hnotin_r]
          constructor
          · exact nodup_append_singleton hnodup_r hnotin_r
          · intro tid htid
            rcases List.mem_append.mp htid with hmem | hmem
            · obtain ⟨tok, htk, ho⟩ := htrace_r tid hmem
              have htne : tid ≠ token_id := fun hc => hnotin_r (hc ▸ hmem)
              refine ⟨tok, ?_, ho.trans hrwid⟩
              rw [mapGet_mapSet, if_neg (fun hc => htne hc.symm)]
              exact htk
            · have htid2 : tid = token_id := by simpa using hmem
              subst htid2
              refine ⟨(token.transfer_ownership receiver_wallet_id).1,
                mapGet_mapSet_self _ _ _, ?_⟩
              rw [htok']
              exact hrwid
        · rename_i hrwid
          rw [mapGet_mapSet] at hwid
          split at hwid
          · rename_i hswid
            have hw3 : w = (w_s.remove_token token_id).1 :=
              (Option.some.inj hwid).symm
            subst hw3
            refine ⟨hnodup_ws', ?_⟩
            intro tid htid
            have htne : tid ≠ token_id := fun hc => hnotin_ws' (hc ▸ htid)
            obtain ⟨tok, htk, ho⟩ := htrace_s tid (hsub_ws' tid htid)
            refine ⟨tok, ?_, ho.trans hswid⟩
            rw [mapGet_mapSet, if_neg (fun hc => htne hc.symm)]
            exact htk
          · rename_i hswid
            obtain ⟨hnd, htr⟩ := hinv.2 wid w hwid
            refine ⟨hnd, ?_⟩
            intro tid htid
            obtain ⟨tok, htk, ho⟩ := htr tid htid
            have htne : tid ≠ token_id := by
              intro hc
              rw [hc, htok] at htk
              have h3 : token = tok := Option.some.inj htk
              rw [← h3, howneq] at ho
              exact hswid ho
            refine ⟨tok, ?_, ho⟩
            rw [mapGet_mapSet, if_neg (fun hc => htne hc.symm)]
            exact htk

theorem tokenInv_step {s s' : SystemState} (hstep : TokStep s s')
    (hinv : TokenOwnershipInv s) : TokenOwnershipInv s' := by
  cases hstep with
  | createWallet wallet_id private_key hfresh hid =>
    exact tokenInv_create_wallet hinv wallet_id private_key hid
  | issueToken value owner_wallet_id token_id hfresh =>
    exact tokenInv_issue_token hinv value owner_wallet_id token_id hfresh
  | transferToken token_id sender_wallet_id receiver_wallet_id =>
    exact tokenInv_transfer_token hinv token_id sender_wallet_id
      receiver_wallet_id

theorem transfer_token_post {s : SystemState}
    (hinv : TokenOwnershipInv s)
    (token_id sender_wallet_id receiver_wallet_id : String)
    (hne : sender_wallet_id ≠ receiver_wallet_id)
    (hsucc : (transfer_token s token_id sender_wallet_id
      receiver_wallet_id).1 = true) :
    (∀ w, mapGet (transfer_token s token_id sender_wallet_id
        receiver_wallet_id).2.wallets sender_wallet_id = some w →
      token_id ∉ w.token_balance) ∧
    (∀ w, mapGet (transfer_token s token_id sender_wallet_id
        receiver_wallet_id).2.wallets receiver_wallet_id = some w →
      token_id ∈ w.token_balance) ∧
    (∃ tok, mapGet (transfer_token s token_id sender_wallet_id
        receiver_wallet_id).2.tokens token_id = some tok ∧
      tok.owner_wallet_id = receiver_wallet_id) := by
  simp only [transfer_token] at hsucc ⊢
  cases htok : mapGet s.tokens token_id with
  | none =>
    rw [htok] at hsucc
    dsimp only [] at hsucc
    exact absurd hsucc (by simp)
  | some token =>
    rw [htok] at hsucc
    dsimp only [] at hsucc ⊢
    by_cases hown : token.owner_wallet_id ≠ sender_wallet_id
    · rw [if_pos hown] at hsucc
      exact absurd hsucc (by simp)
    rw [if_neg hown] at hsucc ⊢
    by_cases hwex :
        ¬(wallet_exists s sender_wallet_id &&
          wallet_exists s receiver_wallet_id) = true
    · rw [if_pos hwex] at hsucc
      exact absurd hsucc (by simp)
    rw [if_neg hwex] at hsucc ⊢
    have hw2 := not_not.mp hwex
    rw [Bool.and_eq_true] at hw2
    have hrne : receiver_wallet_id ≠ "" := by
      intro hc
      have h2 := hw2.2
      rw [hc, wallet_exists, hinv.1] at h2
      simp at h2
    have htok' : (token.transfer_ownership receiver_wallet_id).1 =
        { token with owner_wallet_id := receiver_wallet_id } := by
      simp [Token.transfer_ownership, hrne]
    dsimp only []
    cases heqs : mapGet s.wallets sender_wallet_id with
    | none =>
      exfalso
      have h2 := hw2.1
      rw [wallet_exists, heqs] at h2
      simp at h2
    | some w_s =>
      obtain ⟨hnodup_s, -⟩ := hinv.2 sender_wallet_id w_s heqs
      have hnotin_ws' :
          token_id ∉ (w_s.remove_token token_id).1.token_balance := by
        rw [remove_token_balance]
        split
        · intro hmem
          exact ((List.Nodup.mem_erase_iff hnodup_s).mp hmem).1 rfl
        · assumption
      dsimp only []
      cases heqr : mapGet
          (mapSet s.wallets sender_wallet_id (w_s.remove_token token_id).1)
          receiver_wallet_id with
      | none =>
        exfalso
        rw [mapGet_mapSet] at heqr
        split at heqr
        · cases heqr
        · have h2 := hw2.2
          rw [wallet_exists, heqr] at h2
          simp at h2
      | some w_r =>
        refine ⟨?_, ?_, ?_⟩
        · intro w hw3
          dsimp only [] at hw3
          rw [mapGet_mapSet, if_neg (fun hc => hne hc.symm),
            mapGet_mapSet_self] at hw3
          injection hw3 with hw3
          rw [← hw3]
          exact hnotin_ws'
        · intro w hw3
          dsimp only [] at hw3
          rw [mapGet_mapSet_self] at hw3
          injection hw3 with hw3
          rw [← hw3]
          exact mem_add_token w_r token_id
        · dsimp only []
          refine ⟨(token.transfer_ownership receiver_wallet_id).1,
            mapGet_mapSet_self _ _ _, ?_⟩
          rw [htok']

/-- **C3** (amended): ownership uniqueness holds in every state reachable
through wallet creation and `TokenManager` operations — each token id sits in
at most one wallet's token set, and every token id in a wallet's set names a
stored token owned by that wallet — and a successful
`transfer_token(token_id, sender, receiver)` **with distinct sender and
receiver** removes the token id from the sender's set, adds it to the
receiver's set, and reassigns `owner_wallet_id` to the receiver.  The
distinctness hypothesis is necessary: `transfer_token` never compares sender
and receiver, and on a self-transfer the token id stays in the sender's
set. -/
theorem token_ownership_unique (s : SystemState) (h : TokReachable s) :
    (∀ wid1 wid2 w1 w2 token_id,
      mapGet s.wallets wid1 = some w1 → mapGet s.wallets wid2 = some w2 →
      token_id ∈ w1.token_balance → token_id ∈ w2.token_balance →
      wid1 = wid2) ∧
    (∀ wid w token_id, mapGet s.wallets wid = some w →
      token_id ∈ w.token_balance →
      ∃ tok, mapGet s.tokens token_id = some tok ∧
        tok.owner_wallet_id = wid) ∧
    (∀ token_id sender_wallet_id receiver_wallet_id,
      sender_wallet_id ≠ receiver_wallet_id →
      (transfer_token s token_id sender_wallet_id
        receiver_wallet_id).1 = true →
      (∀ w, mapGet (transfer_token s token_id sender_wallet_id
          receiver_wallet_id).2.wallets sender_wallet_id = some w →
        token_id ∉ w.token_balance) ∧
      (∀ w, mapGet (transfer_token s token_id sender_wallet_id
          receiver_wallet_id).2.wallets receiver_wallet_id = some w →
        token_id ∈ w.token_balance) ∧
      (∃ tok, mapGet (transfer_token s token_id sender_wallet_id
          receiver_wallet_id).2.tokens token_id = some tok ∧
        tok.owner_wallet_id = receiver_wallet_id)) := by
  have hinv : TokenOwnershipInv s := by
    induction h with
    | refl =>
      exact ⟨rfl, by intro wid w hw; simp [SystemState.empty, mapGet] at hw⟩
    | tail hsteps hstep ih => exact tokenInv_step hstep ih
  refine ⟨?_, fun wid w token_id hw hm => (hinv.2 wid w hw).2 token_id hm, ?_⟩
  · intro wid1 wid2 w1 w2 token_id hw1 hw2 hm1 hm2
    obtain ⟨tok1, ht1, ho1⟩ := (hinv.2 wid1 w1 hw1).2 token_id hm1
    obtain ⟨tok2, ht2, ho2⟩ := (hinv.2 wid2 w2 hw2).2 token_id hm2
    have h3 : tok1 = tok2 := Option.some.inj (ht1.symm.trans ht2)
    rw [← ho1, ← ho2, h3]
  · intro token_id sender_wallet_id receiver_wallet_id hne hsucc
    exact transfer_token_post hinv token_id sender_wallet_id
      receiver_wallet_id hne hsucc

/-- **C3** (counterexample to the claim as stated): in the reachable state
with wallet `W1` owning token `TOK1`, the self-transfer
`transfer_token("TOK1", "W1", "W1")` succeeds, yet `TOK1` is still in the
sender `W1`'s token set afterwards — the claimed "absent from the sender's
token set" fails when sender and receiver coincide. -/
theorem self_transfer_counterexample :
    TokReachable c3_base ∧
    c3_run.1 = true ∧
    ((mapGet c3_run.2.wallets "W1").map
      (fun w => decide ("TOK1" ∈ w.token_balance))) = some true ∧
    ((mapGet c3_run.2.tokens "TOK1").map
      (fun tok => tok.owner_wallet_id)) = some "W1" := by
  refine ⟨?_, by decide, by decide, by decide⟩
  exact Relation.ReflTransGen.tail (Relation.ReflTransGen.tail
    Relation.ReflTransGen.refl
    (TokStep.createWallet SystemState.empty "W1" "K1" rfl (by decide)))
    (TokStep.issueToken s_w1 5 "W1" "TOK1" rfl)

/-- Witness for `token_ownership_unique`: in the reachable two-wallet state
with `TOK1` issued to `W1`, the token id in `W1`'s set names the stored
token owned by `W1`. -/
theorem token_ownership_unique_witness :
    ∃ tok, mapGet s_tok50.tokens "TOK1" = some tok ∧
      tok.owner_wallet_id = "W1" := by
  have hreach : TokReachable s_tok50 :=
    Relation.ReflTransGen.tail (Relation.ReflTransGen.tail
      (Relation.ReflTransGen.tail Relation.ReflTransGen.refl
        (TokStep.createWallet SystemState.empty "W1" "K1" rfl (by decide)))
      (TokStep.createWallet s_w1 "W2" "K2" rfl (by decide)))
      (TokStep.issueToken s_w2 50 "W1" "TOK1" rfl)
  exact (token_ownership_unique s_tok50 hreach).2.1 "W1"
    { wallet_id := "W1", public_key := "sha256pub:K1", private_key := "K1",
      token_balance := ["TOK1"], voucher_balance := 0 }
    "TOK1" (by decide) (by decide)

theorem unused_count_zero_of_fresh {s : SystemState} {wallet_id : String}
    (hinv : VoucherCountInv s)
    (hfresh : mapGet s.wallets wallet_id = Option.none) :
    unused_voucher_count s wallet_id = 0 := by
  rw [unused_voucher_count, List.length_eq_zero, List.filter_eq_nil_iff]
  intro p hp hpred
  have h1 := hinv.1 p hp
  have h2 : p.2.issued_to_wallet_id = wallet_id := by
    have h3 := hpred
    rw [Bool.and_eq_true] at h3
    simpa using h3.1
  rw [wallet_exists, h2, hfresh] at h1
  simp at h1

theorem voucherInv_create_wallet {s : SystemState} (hinv : VoucherCountInv s)
    (wallet_id private_key : String)
    (hfresh : mapGet s.wallets wallet_id = Option.none) :
    VoucherCountInv (create_wallet s wallet_id private_key).2 := by
  constructor
  · intro p hp
    have h1 := hinv.1 p hp
    rw [wallet_exists] at h1 ⊢
    dsimp only [create_wallet]
    rw [mapGet_mapSet]
    split <;> simp [h1]
  · intro wid w hw
    dsimp only [create_wallet] at hw ⊢
    rw [mapGet_mapSet] at hw
    split at hw
    · rename_i heq
      injection hw with hw
      subst hw
      show (0 : Int) = (unused_voucher_count s wid : Int)
      rw [unused_count_zero_of_fresh hinv (heq ▸ hfresh)]
      simp
    · show w.voucher_balance = (unused_voucher_count s wid : Int)
      exact hinv.2 wid w hw

theorem voucherInv_issue_voucher {s : SystemState} (hinv : VoucherCountInv s)
    (wallet_id : String) (value_limit : Int) (voucher_id ts : String)
    (hfresh : mapGet s.vouchers voucher_id = Option.none) :
    VoucherCountInv (issue_voucher s wallet_id value_limit voucher_id ts).2 := by
  simp only [issue_voucher]
  split
  · exact hinv
  split
  · exact hinv
  rename_i hwex hvalid
  dsimp only []
  cases hw : mapGet s.wallets wallet_id with
  | none =>
    exfalso
    have h2 := not_not.mp hwex
    rw [wallet_exists, hw] at h2
    simp at h2
  | some w =>
    have hvapp := mapSet_of_get_none
      ({ voucher_id := voucher_id,
         signature := generate_aml_signature
           (voucher_issue_data voucher_id value_limit wallet_id ts),
         value_limit := value_limit, issued_to_wallet_id := wallet_id,
         issue_timestamp := some ts } : Voucher) hfresh
    constructor
    · intro p hp
      dsimp only [] at hp
      rw [hvapp] at hp
      rcases List.mem_append.mp hp with hmem | hmem
      · have h1 := hinv.1 p hmem
        rw [wallet_exists] at h1 ⊢
        dsimp only []
        rw [mapGet_mapSet]
        split <;> simp [h1]
      · rw [List.mem_singleton] at hmem
        subst hmem
        rw [wallet_exists]
        dsimp only []
        rw [mapGet_mapSet_self]
        rfl
    · intro wid w' hw'
      dsimp only [] at hw' ⊢
      rw [mapGet_mapSet] at hw'
      rw [unused_voucher_count]
      split at hw'
      · rename_i heq
        injection hw' with hw'
        subst hw'
        show w.voucher_balance + 1 = _
        have hbal := hinv.2 wid w (heq ▸ hw)
        rw [hbal, unused_voucher_count]
        dsimp only []
        rw [hvapp, List.filter_append]
        rw [show List.filter
            (fun p => p.2.issued_to_wallet_id == wid && !p.2.is_used)
            [(voucher_id,
              ({ voucher_id := voucher_id,
                 signature := generate_aml_signature
                   (voucher_issue_data voucher_id value_limit wallet_id ts),
                 value_limit := value_limit,
                 issued_to_wallet_id := wallet_id,
                 issue_timestamp := some ts } : Voucher))] =
            [(voucher_id,
              ({ voucher_id := voucher_id,
                 signature := generate_aml_signature
                   (voucher_issue_data voucher_id value_limit wallet_id ts),
                 value_limit := value_limit,
                 issued_to_wallet_id := wallet_id,
                 issue_timestamp := some ts } : Voucher))]
          from by simp [heq]]
        rw [List.length_append, List.length_singleton]
        push_cast
        ring
      · rename_i hne
        have hprev := hinv.2 wid w' hw'
        rw [hprev, unused_voucher_count]
        dsimp only []
        rw [hvapp, List.filter_append]
        rw [show List.filter
            (fun p => p.2.issued_to_wallet_id == wid && !p.2.is_used)
            [(voucher_id,
              ({ voucher_id := voucher_id,
                 signature := generate_aml_signature
                   (voucher_issue_data voucher_id value_limit wallet_id ts),
                 value_limit := value_limit,
                 issued_to_wallet_id := wallet_id,
                 issue_timestamp := some ts } : Voucher))] = []
          from by simp; intro hc; exact absurd hc hne]
        simp

theorem redeem_voucher_atomic {s : SystemState} (hinv : VoucherCountInv s)
    (voucher_id transaction_id : String) (transaction_value : Int) :
    ((redeem_voucher s voucher_id transaction_id transaction_value).1 =
        false ∧
      (redeem_voucher s voucher_id transaction_id transaction_value).2 = s) ∨
    ((redeem_voucher s voucher_id transaction_id transaction_value).1 =
        true ∧
      ∃ v w, mapGet s.vouchers voucher_id = some v ∧
        v.is_used = false ∧
        mapGet s.wallets v.issued_to_wallet_id = some w ∧
        (1 : Int) ≤ w.voucher_balance ∧
        (redeem_voucher s voucher_id transaction_id transaction_value).2 =
          { s with
            vouchers := mapSet s.vouchers voucher_id
              { v with is_used := true,
                       used_in_transaction := some transaction_id },
            wallets := mapSet s.wallets v.issued_to_wallet_id
              { w with voucher_balance := w.voucher_balance - 1 } }) := by
  simp only [redeem_voucher]
  cases hv : mapGet s.vouchers voucher_id with
  | none => exact Or.inl ⟨rfl, rfl⟩
  | some v =>
    dsimp only []
    by_cases hc : v.can_be_used_for_value transaction_value = true
    case neg =>
      rw [if_pos hc]
      exact Or.inl ⟨rfl, rfl⟩
    case pos =>
      rw [if_neg (fun h2 => h2 hc)]
      obtain ⟨hused, -⟩ := can_be_used_elim hc
      have hm : v.mark_as_used transaction_id =
          ({ v with
              is_used := true,
              used_in_transaction := some transaction_id }, true) := by
        simp [Voucher.mark_as_used, hused]
      rw [hm]
      dsimp only []
      rw [if_pos rfl]
      have hvmem : (voucher_id, v) ∈ s.vouchers := mapGet_mem hv
      have hwex := hinv.1 (voucher_id, v) hvmem
      cases hw : mapGet s.wallets v.issued_to_wallet_id with
      | none =>
        exfalso
        rw [wallet_exists, hw] at hwex
        simp at hwex
      | some w =>
        have hbal := hinv.2 v.issued_to_wallet_id w hw
        have hpos : 1 ≤ unused_voucher_count s v.issued_to_wallet_id := by
          rw [unused_voucher_count]
          exact List.length_pos_of_mem
            (List.mem_filter.mpr ⟨hvmem, by simp [hused]⟩)
        have hpos2 : (1 : Int) ≤ w.voucher_balance := by
          rw [hbal]
          exact_mod_cast hpos
        have huse : w.use_voucher =
            ({ w with voucher_balance := w.voucher_balance - 1 }, true) := by
          simp only [Wallet.use_voucher]
          rw [if_pos (by omega : (0 : Int) < w.voucher_balance)]
        dsimp only []
        rw [huse]
        exact Or.inr ⟨rfl, v, w, rfl, hused, hw, hpos2, rfl⟩

theorem voucherInv_redeem_voucher {s : SystemState} (hinv : VoucherCountInv s)
    (voucher_id transaction_id : String) (transaction_value : Int) :
    VoucherCountInv
      (redeem_voucher s voucher_id transaction_id transaction_value).2 := by
  rcases redeem_voucher_atomic hinv voucher_id transaction_id
      transaction_value with ⟨-, heq⟩ | ⟨-, v, w, hv, hused, hw, -, heq⟩
  · rw [heq]
    exact hinv
  · rw [heq]
    constructor
    · intro p hp
      dsimp only [] at hp
      rcases mem_mapSet hp with hmem | hpeq
      · have h1 := hinv.1 p hmem
        rw [wallet_exists] at h1 ⊢
        dsimp only []
        rw [mapGet_mapSet]
        split <;> simp [h1]
      · subst hpeq
        rw [wallet_exists]
        dsimp only []
        rw [mapGet_mapSet_self]
        rfl
    · intro wid w' hw'
      dsimp only [] at hw' ⊢
      rw [mapGet_mapSet] at hw'
      have hfl := filter_length_mapSet
        ({ v with
            is_used := true,
            used_in_transaction := some transaction_id } : Voucher)
        (fun p => p.2.issued_to_wallet_id == wid && !p.2.is_used) hv
      rw [unused_voucher_count]
      dsimp only []
      split at hw'
      · rename_i heq2
        injection hw' with hw'
        subst hw'
        show w.voucher_balance - 1 = _
        have hbal := hinv.2 wid w (heq2 ▸ hw)
        rw [hbal, unused_voucher_count]
        rw [if_pos (by simp [heq2, hused]), if_neg (by simp)] at hfl
        have hfl2 : (List.filter
            (fun p => p.2.issued_to_wallet_id == wid && !p.2.is_used)
            (mapSet s.vouchers voucher_id
              { v with
                  is_used := true,
                  used_in_transaction := some transaction_id })).length + 1 =
            (List.filter
              (fun p => p.2.issued_to_wallet_id == wid && !p.2.is_used)
              s.vouchers).length := by omega
        rw [← hfl2]
        push_cast
        ring
      · rename_i hne2
        have hprev := hinv.2 wid w' hw'
        rw [hprev, unused_voucher_count]
        have hiss : (v.issued_to_wallet_id == wid) = false := by
          have : v.issued_to_wallet_id ≠ wid := fun hc => hne2 (hc ▸ rfl)
          simpa using this
        rw [if_neg (by simp [hiss]), if_neg (by simp [hiss])] at hfl
        simp only [Nat.add_zero] at hfl
        rw [hfl]

theorem voucherInv_step {s s' : SystemState} (hstep : VouStep s s')
    (hinv : VoucherCountInv s) : VoucherCountInv s' := by
  cases hstep with
  | createWallet wallet_id private_key hfresh hid =>
    exact voucherInv_create_wallet hinv wallet_id private_key hfresh
  | issueVoucher wallet_id value_limit voucher_id ts hfresh =>
    exact voucherInv_issue_voucher hinv wallet_id value_limit voucher_id ts
      hfresh
  | redeemVoucher voucher_id transaction_id transaction_value =>
    exact voucherInv_redeem_voucher hinv voucher_id transaction_id
      transaction_value

/-- **C9** Voucher redemption atomicity: in every state reachable through
wallet creation and `VoucherAuthority` operations, a `redeem_voucher` call
either changes nothing — it returns `false` with the state exactly as before
— or returns `true` and performs both effects together: the voucher is
marked used with the consuming transfer id recorded, and the issuing
wallet's `voucher_balance` (which the reachable-state invariant keeps equal
to the wallet's number of unused vouchers, hence at least 1 here) is
decremented by exactly one.  One effect without the other never occurs. -/
theorem voucher_redemption_atomicity (s : SystemState) (h : VouReachable s)
    (voucher_id transaction_id : String) (transaction_value : Int) :
    ((redeem_voucher s voucher_id transaction_id transaction_value).1 =
        false ∧
      (redeem_voucher s voucher_id transaction_id transaction_value).2 = s) ∨
    ((redeem_voucher s voucher_id transaction_id transaction_value).1 =
        true ∧
      ∃ v w, mapGet s.vouchers voucher_id = some v ∧
        v.is_used = false ∧
        mapGet s.wallets v.issued_to_wallet_id = some w ∧
        (1 : Int) ≤ w.voucher_balance ∧
        (redeem_voucher s voucher_id transaction_id transaction_value).2 =
          { s with
            vouchers := mapSet s.vouchers voucher_id
              { v with is_used := true,
                       used_in_transaction := some transaction_id },
            wallets := mapSet s.wallets v.issued_to_wallet_id
              { w with voucher_balance := w.voucher_balance - 1 } }) := by
  have hinv : VoucherCountInv s := by
    induction h with
    | refl =>
      exact ⟨by intro p hp; simp [SystemState.empty] at hp,
        by intro wid w hw; simp [SystemState.empty, mapGet] at hw⟩
    | tail hsteps hstep ih => exact voucherInv_step hstep ih
  exact redeem_voucher_atomic hinv voucher_id transaction_id transaction_value

/-- Witness for `voucher_redemption_atomicity`: the two-wallet state with
voucher `V1` issued to `W1` is reachable, and redeeming `V1` there succeeds
(so the theorem's success branch applies with both effects). -/
theorem voucher_redemption_atomicity_witness :
    VouReachable s_vou ∧ c4_run.1 = true := by
  have hreach : VouReachable s_vou :=
    Relation.ReflTransGen.tail (Relation.ReflTransGen.tail
      (Relation.ReflTransGen.tail Relation.ReflTransGen.refl
        (VouStep.createWallet SystemState.empty "W1" "K1" rfl (by decide)))
      (VouStep.createWallet s_w1 "W2" "K2" rfl (by decide)))
      (VouStep.issueVoucher s_w2 "W1" 100 "V1" tsA rfl)
  refine ⟨hreach, ?_⟩
  rcases voucher_redemption_atomicity s_vou hreach "V1" "TXV" 50 with
    ⟨hfalse, -⟩ | ⟨htrue, -⟩
  · exact absurd hfalse (by decide)
  · exact htrue
